import Mathlib

/-!
Formal model of the Chaos Reviewer log-triage pipeline.

The repository has three Python modules:
  * `src/agent/agent.py`        (namespace `AgentPy` below)
  * `src/Chaos Reviewer/Agent.py` (namespace `ChaosPy` below)
  * `src/agent/webhook.py`      (namespace `Webhook` below)

The core pipeline (finding extraction by regular-expression families,
language classification, fix/explanation composition, quip selection,
message routing and the Gist polling bridge) is embedded shallowly:

  * Python `str` becomes `String` (worked on as `List Char` internally);
  * the three regular expressions of `_extract_findings` are embedded as
    direct backtracking matchers whose search order mirrors `re.finditer`
    with `re.MULTILINE` (leftmost match, greedy/lazy quantifier priority,
    resume at the end of the previous match);
  * external LLM calls are modelled as `Option String` oracle parameters
    (`none` = provider unconfigured / request failed / empty after the
    caller's truthiness check fails);
  * `random.choice` / `random.random() < 0.25` are modelled by explicit
    `pick : Nat` (index, reduced mod the pool size) and `mix : Bool`
    parameters;
  * Python runtime type errors (e.g. `re.finditer(None)`,
    `(5).strip()`) are modelled with `Except PyErr`.
-/

namespace ChaosReview

/-- Python runtime exceptions that the modelled code can raise. -/
inductive PyErr where
  | typeError
  | attributeError
  | valueError
deriving DecidableEq, Repr

/-- Python `\s` on ASCII input (space, tab, newline, carriage return,
vertical tab, form feed). -/
def isSpaceC (c : Char) : Bool :=
  c == ' ' || c == '\t' || c == '\n' || c == '\x0d' || c == '\x0b' || c == '\x0c'

/-- Python `\d` on ASCII input. -/
def isDigitC (c : Char) : Bool := '0' ≤ c && c ≤ '9'

/-- Python `\w` on ASCII input. -/
def isWordC (c : Char) : Bool :=
  ('a' ≤ c && c ≤ 'z') || ('A' ≤ c && c ≤ 'Z') || isDigitC c || c == '_'

/-- List-of-chars prefix test (Python `str.startswith` on the suffix). -/
def isPre : List Char → List Char → Bool
  | [], _ => true
  | _ :: _, [] => false
  | a :: as, b :: bs => a == b && isPre as bs

/-- Auxiliary scan for substring containment. -/
def containsSubAux (pat : List Char) : List Char → Bool
  | [] => pat.isEmpty
  | c :: t => isPre pat (c :: t) || containsSubAux pat t

/-- Python `pat in s` substring containment. -/
def containsSub (s pat : String) : Bool := containsSubAux pat.toList s.toList

/-- Auxiliary for `collapseWs`; the flag records whether the previous
character was whitespace (already emitted as a single space). -/
def collapseWsAux : List Char → Bool → List Char
  | [], _ => []
  | c :: t, prevWs =>
    if isSpaceC c then
      if prevWs then collapseWsAux t true else ' ' :: collapseWsAux t true
    else c :: collapseWsAux t false

/-- Python `re.sub(r'\s+', ' ', s)`: collapse each whitespace run to one
space. -/
def collapseWs (s : String) : String := String.mk (collapseWsAux s.toList false)

/-- Split on newline characters, keeping empty parts (the behaviour of
`str.split("\n")`). -/
def splitNl : List Char → List Char → List String
  | [], accRev => [String.mk accRev.reverse]
  | c :: t, accRev =>
    if c == '\n' then String.mk accRev.reverse :: splitNl t []
    else splitNl t (c :: accRev)

/-- Python `str.splitlines()` for `\n`-separated text: no trailing empty
line is produced for a trailing newline, and `"".splitlines() == []`. -/
def pySplitlines (s : String) : List String :=
  if s = "" then []
  else
    let parts := splitNl s.toList []
    if s.toList.getLast? = some '\n' then parts.dropLast else parts

/-- Digit-string to `Nat` (Python `int` on a `\d+` capture). -/
def digitsToNat (cs : List Char) : Nat :=
  cs.foldl (fun a c => a * 10 + (c.toNat - 48)) 0

/-- Indexing helper for `nthMod`. -/
def nthAux : List String → Nat → String
  | [], _ => ""
  | x :: _, 0 => x
  | _ :: t, n + 1 => nthAux t n

/-- Python `random.choice(xs)`: an arbitrary in-range index, modelled as
`pick % xs.length`. -/
def nthMod (xs : List String) (pick : Nat) : String := nthAux xs (pick % xs.length)

/-- Python `str(n)` for a natural number (`f"{file}:{line}"`). -/
def natToStrAux : Nat → Nat → List Char
  | 0, _ => []
  | fuel + 1, n =>
    if n < 10 then [Char.ofNat (48 + n)]
    else natToStrAux fuel (n / 10) ++ [Char.ofNat (48 + n % 10)]

/-- Python `str(n)` for a natural number. -/
def natToStr (n : Nat) : String := String.mk (natToStrAux (n + 1) n)

/-- One extracted diagnostic unit (`{"file": ..., "line": ..., "msg": ...}`
in the Python source). -/
structure Finding where
  file : String
  line : Nat
  msg : String
deriving DecidableEq, Repr

/-- One `re.Match`: the named capture groups the extraction code reads via
`groupdict()` plus the whole matched text (`m.group(0)`).  A group that is
either unnamed in the pattern or did not participate is `none`. -/
structure RawMatch where
  file : Option String
  lineS : Option String
  msg : Option String
  whole : String
deriving DecidableEq, Repr

/-- Python `str.strip()` on ASCII input. -/
def pyStrip (s : String) : String :=
  String.mk (((s.toList.dropWhile isSpaceC).reverse.dropWhile isSpaceC).reverse)

/-- Python `str.lower()` on the character sets used here (ASCII letters
are lowered, anything else is unchanged). -/
def pyLower (s : String) : String := String.mk (s.toList.map Char.toLower)

/-- Python `str.startswith(pre)`. -/
def pyStartsWith (s pre : String) : Bool := isPre pre.toList s.toList

/-- Python `str.endswith(suf)`. -/
def pyEndsWith (s suf : String) : Bool :=
  isPre suf.toList.reverse s.toList.reverse

/-- Python `s[:n]` for a non-negative `n`. -/
def pyTake (s : String) (n : Nat) : String := String.mk (s.toList.take n)


namespace Rx

/-- Consume a literal character sequence. -/
def expectStr : List Char → List Char → Option (List Char)
  | [], cs => some cs
  | _ :: _, [] => none
  | l :: ls, c :: cs => if l == c then expectStr ls cs else none

/-- The `.+$` tail at the current position: the nonempty remainder of the
current line (`.` does not match `\n`; `$` holds at a line end under
`re.MULTILINE`).  Returns the capture and the rest of the input. -/
def msgTail (cs : List Char) : Option (List Char × List Char) :=
  let m := cs.takeWhile (fun c => c != '\n')
  if m.isEmpty then none else some (m, cs.drop m.length)

/-- The `\s*(?P<msg>.+)$` tail: greedy `\s*` (which may consume newlines)
backtracking into the start of `msg`. -/
def wsGreedyMsg : List Char → Option (List Char × List Char)
  | [] => none
  | c :: rest =>
    if isSpaceC c then
      match wsGreedyMsg rest with
      | some r => some r
      | none => msgTail (c :: rest)
    else msgTail (c :: rest)

/-- Match of `^(?P<file>[^:\n]+):(?P<line>\d+):\d*:?\s*error:\s*(?P<msg>.+)$`
(gcc/clang family of `src/agent/agent.py`) at a line-start position.
Each greedy character-class run is followed by a token the class cannot
match, so regex backtracking collapses to this deterministic parse. -/
def p1a_matchAt (cs : List Char) : Option (RawMatch × List Char) :=
  let fileCs := cs.takeWhile (fun c => c != ':' && c != '\n')
  if fileCs.isEmpty then none
  else
    match cs.drop fileCs.length with
    | ':' :: r2 =>
      let lineCs := r2.takeWhile isDigitC
      if lineCs.isEmpty then none
      else
        match r2.drop lineCs.length with
        | ':' :: r3 =>
          let r4 := r3.dropWhile isDigitC
          let r5 := match r4 with
            | ':' :: t => t
            | _ => r4
          let r6 := r5.dropWhile isSpaceC
          match expectStr "error:".toList r6 with
          | some r7 =>
            match wsGreedyMsg r7 with
            | some (msgCs, rest) =>
              some (⟨some (String.mk fileCs), some (String.mk lineCs),
                     some (String.mk msgCs),
                     String.mk (cs.take (cs.length - rest.length))⟩, rest)
            | none => none
          | none => none
        | _ => none
    | _ => none

/-- Match of
`^(?P<file>[^:\n]+):(?P<line>\d+)(?::\d+)?:\s*error:\s*(?P<msg>.+)$`
(gcc/clang family of the Chaos Reviewer variant, optional column group) at
a line-start position.  When the optional `(?::\d+)?` group is taken but
the following `:` is absent, the group-skipping alternative also fails (a
digit would sit where `error` is required), so no fallback is needed. -/
def p1c_matchAt (cs : List Char) : Option (RawMatch × List Char) :=
  let fileCs := cs.takeWhile (fun c => c != ':' && c != '\n')
  if fileCs.isEmpty then none
  else
    match cs.drop fileCs.length with
    | ':' :: r2 =>
      let lineCs := r2.takeWhile isDigitC
      if lineCs.isEmpty then none
      else
        let rest3 := r2.drop lineCs.length
        let col : Option (List Char) := match rest3 with
          | ':' :: d :: t =>
            if isDigitC d then some ((d :: t).dropWhile isDigitC) else none
          | _ => none
        let rest4 := match col with
          | some rr => rr
          | none => rest3
        match rest4 with
        | ':' :: r4 =>
          let r5 := r4.dropWhile isSpaceC
          match expectStr "error:".toList r5 with
          | some r6 =>
            match wsGreedyMsg r6 with
            | some (msgCs, rest) =>
              some (⟨some (String.mk fileCs), some (String.mk lineCs),
                     some (String.mk msgCs),
                     String.mk (cs.take (cs.length - rest.length))⟩, rest)
            | none => none
          | none => none
        | _ => none
    | _ => none

/-- The tail of the tsc pattern after the literal `(`:
`\d+,\d+\):\s*error\s+TS\d+:\s*(?P<msg>.+)$`.
Returns (line digits, msg capture, rest). -/
def p3_tail (cs : List Char) : Option (List Char × List Char × List Char) :=
  let d1 := cs.takeWhile isDigitC
  if d1.isEmpty then none
  else
    match cs.drop d1.length with
    | ',' :: r2 =>
      let d2 := r2.takeWhile isDigitC
      if d2.isEmpty then none
      else
        match r2.drop d2.length with
        | ')' :: ':' :: r3 =>
          let r4 := r3.dropWhile isSpaceC
          match expectStr "error".toList r4 with
          | some r5 =>
            match r5 with
            | c :: _ =>
              if isSpaceC c then
                let r6 := r5.dropWhile isSpaceC
                match expectStr "TS".toList r6 with
                | some r7 =>
                  let d3 := r7.takeWhile isDigitC
                  if d3.isEmpty then none
                  else
                    match r7.drop d3.length with
                    | ':' :: r8 =>
                      match wsGreedyMsg r8 with
                      | some (msgCs, rest) => some (d1, msgCs, rest)
                      | none => none
                    | _ => none
                | none => none
              else none
            | [] => none
          | none => none
        | _ => none
    | _ => none

/-- Try the candidate `(` positions for the greedy `file` group of the tsc
pattern, longest file first. -/
def p3_tryKs (cs run : List Char) : List Nat → Option (RawMatch × List Char)
  | [] => none
  | k :: ks =>
    match p3_tail (cs.drop (k + 1)) with
    | some (d1, msgCs, rest) =>
      some (⟨some (String.mk (run.take k)), some (String.mk d1),
             some (String.mk msgCs),
             String.mk (cs.take (cs.length - rest.length))⟩, rest)
    | none => p3_tryKs cs run ks

/-- Match of
`(?P<file>[^:\n]+)\((?P<line>\d+),\d+\):\s*error\s+TS\d+:\s*(?P<msg>.+)$`
(tsc family, identical in both variants) at an arbitrary position.  The
greedy `file` group means the rightmost `(` inside the initial `[^:\n]`
run that lets the remainder succeed is chosen. -/
def p3_matchAt (cs : List Char) : Option (RawMatch × List Char) :=
  let run := cs.takeWhile (fun c => c != ':' && c != '\n')
  let ks := ((List.range run.length).filter
    (fun k => run.getD k ' ' == '(' && 1 ≤ k)).reverse
  p3_tryKs cs run ks

/-- The consumed terminator `(?:\n\s*\w.*:)` of the traceback pattern:
a newline, maximal whitespace (possibly spanning further newlines), one
word character, then greedy `.*:` — i.e. the last `:` on that line.
Returns the rest of the input after the terminator. -/
def p2_term (cs : List Char) : Option (List Char) :=
  match cs with
  | '\n' :: r =>
    let r2 := r.dropWhile isSpaceC
    match r2 with
    | c :: r3 =>
      if isWordC c then
        let lineCs := r3.takeWhile (fun x => x != '\n')
        let t := (lineCs.reverse.takeWhile (fun x => x != ':')).length
        if t == lineCs.length then none
        else some (r3.drop (lineCs.length - t))
      else none
    | [] => none
  | _ => none

/-- The lazy `(?P<msg>[\s\S]*?)(?:\n\s*\w.*:|\Z)` of the traceback
pattern: at each position first try the structured terminator, then `\Z`,
else consume one character into `msg`. -/
def p2_msgScan : Nat → List Char → List Char → Option (List Char × List Char)
  | 0, _, _ => none
  | fuel + 1, cs, accRev =>
    match p2_term cs with
    | some rest => some (accRev.reverse, rest)
    | none =>
      match cs with
      | [] => some (accRev.reverse, [])
      | c :: t => p2_msgScan fuel t (c :: accRev)

/-- Common core of the interpreter-traceback pattern
`File "([^"]+)", line (\d+),.*\n(?P<msg>[\s\S]*?)(?:\n\s*\w.*:|\Z)`;
`needComma` is true for `src/agent/agent.py` (which requires a `,` after
the line number) and false for the Chaos variant.
Returns (file capture, line capture, msg capture, rest). -/
def p2_parts (needComma : Bool) (cs : List Char) :
    Option (List Char × List Char × List Char × List Char) :=
  match expectStr "File \"".toList cs with
  | none => none
  | some r =>
    let fileCs := r.takeWhile (fun c => c != '"')
    if fileCs.isEmpty then none
    else
      match expectStr "\", line ".toList (r.drop fileCs.length) with
      | none => none
      | some r2 =>
        let lineCs := r2.takeWhile isDigitC
        if lineCs.isEmpty then none
        else
          let r3 := r2.drop lineCs.length
          let r4 : Option (List Char) :=
            if needComma then
              match r3 with
              | ',' :: t => some t
              | _ => none
            else some r3
          match r4 with
          | none => none
          | some r5 =>
            let lineRest := r5.takeWhile (fun c => c != '\n')
            match r5.drop lineRest.length with
            | '\n' :: r6 =>
              match p2_msgScan (r6.length + 1) r6 [] with
              | some (msgCs, rest) => some (fileCs, lineCs, msgCs, rest)
              | none => none
            | _ => none

/-- Traceback match for `src/agent/agent.py`: its `file` and `line` groups
are UNNAMED (`File "([^"]+)", line (\d+),`), so `groupdict()` exposes only
`msg`; the `RawMatch` carries `none` for both. -/
def p2a_matchAt (cs : List Char) : Option (RawMatch × List Char) :=
  match p2_parts true cs with
  | some (_, _, msgCs, rest) =>
    some (⟨none, none, some (String.mk msgCs),
           String.mk (cs.take (cs.length - rest.length))⟩, rest)
  | none => none

/-- Traceback match for the Chaos variant: named `file`/`line`/`msg`
groups. -/
def p2c_matchAt (cs : List Char) : Option (RawMatch × List Char) :=
  match p2_parts false cs with
  | some (fileCs, lineCs, msgCs, rest) =>
    some (⟨some (String.mk fileCs), some (String.mk lineCs),
           some (String.mk msgCs),
           String.mk (cs.take (cs.length - rest.length))⟩, rest)
  | none => none

/-- One scan step of `re.finditer` for an unanchored pattern: emit a
match and resume at its end, or advance one character. -/
def finditerStep (m : List Char → Option (RawMatch × List Char))
    (next : List Char → List RawMatch) (cs : List Char) : List RawMatch :=
  match m cs with
  | some (r, rest) => r :: next rest
  | none =>
    match cs with
    | [] => []
    | _ :: t => next t

/-- `re.finditer` for an unanchored pattern: leftmost non-overlapping
matches, resuming at the end of each match.  All modelled matchers consume
at least one character on success, so `fuel = length + 1` suffices. -/
def finditerFree (m : List Char → Option (RawMatch × List Char)) :
    Nat → List Char → List RawMatch
  | 0, _ => []
  | fuel + 1, cs => finditerStep m (finditerFree m fuel) cs

/-- `re.finditer` for a `^`-anchored pattern under `re.MULTILINE`: a match
attempt is made only at line starts.  The matched text of the anchored
patterns ends with a non-newline character, so the position right after a
match is never a line start. -/
def finditerAnch (m : List Char → Option (RawMatch × List Char)) :
    Nat → List Char → Bool → List RawMatch
  | 0, _, _ => []
  | fuel + 1, cs, atStart =>
    if atStart then
      match m cs with
      | some (r, rest) => r :: finditerAnch m fuel rest false
      | none =>
        match cs with
        | [] => []
        | c :: t => finditerAnch m fuel t (c == '\n')
    else
      match cs with
      | [] => []
      | c :: t => finditerAnch m fuel t (c == '\n')

end Rx

/-- Conversion of one `re.Match` into a `Finding`, exactly as the body of
`_extract_findings` does (identical in both variants):
`file_ = (g.get("file") or "").strip()`,
`line_ = int(line_s) if line_s and line_s.isdigit() else 0`,
`msg_ = re.sub(r'\s+', ' ', (g.get("msg") or m.group(0)).strip())`,
kept only under the `if file_ and line_:` guard. -/
def matchToFinding (m : RawMatch) : Option Finding :=
  let file_ := pyStrip (m.file.getD "")
  let line_ := match m.lineS with
    | some s => if s ≠ "" && s.toList.all isDigitC then digitsToNat s.toList else 0
    | none => 0
  let msg0 := match m.msg with
    | some s => if s ≠ "" then s else m.whole
    | none => m.whole
  let msg_ := collapseWs (pyStrip msg0)
  if file_ ≠ "" && line_ ≠ 0 then some ⟨file_, line_, msg_⟩ else none

/-- Inner loop of `_extract_findings` over one pattern's matches: append
each well-formed finding; the `if len(findings) >= 5: break` check runs
after every match, appended or not. -/
def addMatches : List RawMatch → List Finding → List Finding
  | [], acc => acc
  | m :: rest, acc =>
    let acc' := match matchToFinding m with
      | some f => acc ++ [f]
      | none => acc
    if 5 ≤ acc'.length then acc' else addMatches rest acc'

/-- Outer loop of `_extract_findings` over the pattern families, with its
own `if len(findings) >= 5: break`. -/
def runFamilies : List (List RawMatch) → List Finding → List Finding
  | [], acc => acc
  | fam :: rest, acc =>
    let acc' := addMatches fam acc
    if 5 ≤ acc'.length then acc' else runFamilies rest acc'

/-- Keyword predicate of the fallback scan:
`"error" in low or "assertionerror" in low or "failed" in low`. -/
def kwHit (line : String) : Bool :=
  let low := pyLower line
  containsSub low "error" || containsSub low "assertionerror" || containsSub low "failed"

/-- Fallback loop of `_extract_findings`: scan lines for keyword hits,
emitting `{"file": "(unknown)", "line": 1, "msg": line.strip()}`, capped at
three findings. -/
def kwFallbackLoop : List String → List Finding → List Finding
  | [], acc => acc
  | l :: rest, acc =>
    if kwHit l then
      let acc' := acc ++ [⟨"(unknown)", 1, pyStrip l⟩]
      if 3 ≤ acc'.length then acc' else kwFallbackLoop rest acc'
    else kwFallbackLoop rest acc

/-- Python `xs[-300:]`. -/
def last300 (ls : List String) : List String := ls.drop (ls.length - 300)

/-- The whole fallback branch: `log_text.splitlines()[-300:]` scanned by
`kwFallbackLoop`. -/
def kwFallback (t : String) : List Finding :=
  kwFallbackLoop (last300 (pySplitlines t)) []

/-- Well-formed findings of a match list, in order (used to state the
merge characterisation of the scanning loops). -/
def famValid (ms : List RawMatch) : List Finding := ms.filterMap matchToFinding

/-! JSON values and a `json.loads` model (numbers restricted to integers;
the inputs considered in this development contain no floats). -/

/-- JSON values as produced by `json.loads`. -/
inductive JVal where
  | jnull
  | jbool (b : Bool)
  | jnum (n : Int)
  | jstr (s : String)
  | jarr (xs : List JVal)
  | jobj (kvs : List (String × JVal))
deriving Inhabited

/-- JSON inter-token whitespace. -/
def skipWsJ (cs : List Char) : List Char :=
  cs.dropWhile (fun c => c == ' ' || c == '\t' || c == '\n' || c == '\x0d')

/-- JSON string body after the opening quote.  Escapes are handled on the
fragment `\" \\ \/ \n \t \r`; the remaining escapes (`\b \f \uXXXX`) make
the parse fail, so `jparse` stays conservative on them: it never accepts
a document `json.loads` would reject, and on the documents it does accept
it computes the same value.  Unescaped control characters are rejected,
as in `json.loads` strict mode. -/
def parseJStrAux : Nat → List Char → List Char → Option (String × List Char)
  | 0, _, _ => none
  | fuel + 1, cs, accRev =>
    match cs with
    | [] => none
    | '"' :: t => some (String.mk accRev.reverse, t)
    | '\\' :: e :: t =>
      if e == '"' then parseJStrAux fuel t ('"' :: accRev)
      else if e == '\\' then parseJStrAux fuel t ('\\' :: accRev)
      else if e == '/' then parseJStrAux fuel t ('/' :: accRev)
      else if e == 'n' then parseJStrAux fuel t ('\n' :: accRev)
      else if e == 't' then parseJStrAux fuel t ('\t' :: accRev)
      else if e == 'r' then parseJStrAux fuel t ('\x0d' :: accRev)
      else none
    | c :: t =>
      if c.toNat < 32 then none else parseJStrAux fuel t (c :: accRev)

/-- JSON integer literal (`-?(0|[1-9][0-9]*)`, as in the `json` module:
a leading zero is only the literal `0`).  A fractional part or exponent
makes the parse fail — the real-number documents of `json.loads` are
outside the accepted fragment, never misread as something else. -/
def parseJNum (cs : List Char) : Option (Int × List Char) :=
  let p : Bool × List Char := match cs with
    | '-' :: t => (true, t)
    | _ => (false, cs)
  let ds := p.2.takeWhile isDigitC
  if ds.isEmpty then none
  else if ds.length > 1 && ds.headD '0' == '0' then none
  else
    let rest := p.2.drop ds.length
    match rest with
    | '.' :: _ => none
    | 'e' :: _ => none
    | 'E' :: _ => none
    | _ =>
      let n : Int := Int.ofNat (digitsToNat ds)
      some ((if p.1 then -n else n), rest)

mutual

/-- One JSON value starting at the (whitespace-skipped) position. -/
def parseJVal : Nat → List Char → Option (JVal × List Char)
  | 0, _ => none
  | fuel + 1, cs0 =>
    let cs := skipWsJ cs0
    match cs with
    | [] => none
    | '"' :: t => (parseJStrAux (t.length + 1) t []).map (fun p => (JVal.jstr p.1, p.2))
    | 't' :: t => (Rx.expectStr "rue".toList t).map (fun r => (JVal.jbool true, r))
    | 'f' :: t => (Rx.expectStr "alse".toList t).map (fun r => (JVal.jbool false, r))
    | 'n' :: t => (Rx.expectStr "ull".toList t).map (fun r => (JVal.jnull, r))
    | c :: t =>
      if c == '\x7b' then parseJObj fuel (skipWsJ t) []
      else if c == '[' then parseJArr fuel (skipWsJ t) []
      else (parseJNum (c :: t)).map (fun p => (JVal.jnum p.1, p.2))

/-- Members of a JSON object after `{` (or after a member separator). -/
def parseJObj : Nat → List Char → List (String × JVal) → Option (JVal × List Char)
  | 0, _, _ => none
  | fuel + 1, cs, acc =>
    match cs with
    | [] => none
    | c :: t =>
      if c == '\x7d' && acc.isEmpty then some (JVal.jobj [], t)
      else if c == '"' then
        match parseJStrAux (t.length + 1) t [] with
        | some (k, r1) =>
          match skipWsJ r1 with
          | ':' :: r2 =>
            match parseJVal fuel (skipWsJ r2) with
            | some (v, r3) =>
              match skipWsJ r3 with
              | ',' :: r4 => parseJObj fuel (skipWsJ r4) (acc ++ [(k, v)])
              | c2 :: r4 =>
                if c2 == '\x7d' then some (JVal.jobj (acc ++ [(k, v)]), r4) else none
              | [] => none
            | none => none
          | _ => none
        | none => none
      else none

/-- Elements of a JSON array after `[` (or after an element separator). -/
def parseJArr : Nat → List Char → List JVal → Option (JVal × List Char)
  | 0, _, _ => none
  | fuel + 1, cs, acc =>
    match cs with
    | [] => none
    | c :: t =>
      if c == ']' && acc.isEmpty then some (JVal.jarr [], t)
      else
        match parseJVal fuel cs with
        | some (v, r1) =>
          match skipWsJ r1 with
          | ',' :: r2 => parseJArr fuel (skipWsJ r2) (acc ++ [v])
          | ']' :: r2 => some (JVal.jarr (acc ++ [v]), r2)
          | _ => none
        | none => none

end

/-- `json.loads` on the null/bool/integer/string/array/object fragment:
full consumption up to trailing whitespace.  On this fragment the result
agrees with `json.loads` exactly (including last-wins duplicate keys);
`none` covers both a raised `JSONDecodeError` and a document outside the
fragment (real-number literals, `NaN`/`Infinity`, `\b`/`\f`/`\uXXXX`
escapes).  Theorems that need the fact that `json.loads` raises in the
program therefore never conclude it from `jparse = none` alone: they
additionally require `jsonImpossible` below. -/
def jparse (s : String) : Option JVal :=
  match parseJVal (2 * s.length + 2) s.toList with
  | some (v, rest) => if (skipWsJ rest).isEmpty then some v else none
  | none => none

/-- Characters able to open a JSON document accepted by `json.loads`
(values start with one of these; `N`/`I` cover the non-standard `NaN`,
`Infinity`). -/
def jsonStartC (c : Char) : Bool :=
  c == '\x7b' || c == '[' || c == '"' || c == '-' || isDigitC c ||
    c == 't' || c == 'f' || c == 'n' || c == 'N' || c == 'I'

/-- Sound syntactic witness that `json.loads` raises on `t`: after the
JSON whitespace prefix (` \t\n\x0d` only), the first character cannot
open any JSON value (or there is none).  `json.loads` accepts only
documents whose first non-whitespace character opens a value, so
`jsonImpossible t = true` guarantees the program takes its
`except`/plain-text path on `t`. -/
def jsonImpossible (t : String) : Bool :=
  match skipWsJ t.toList with
  | [] => true
  | c :: _ => !jsonStartC c

/-- Python truthiness of a JSON value. -/
def jtruthy : JVal → Bool
  | .jnull => false
  | .jbool b => b
  | .jnum n => n != 0
  | .jstr s => s ≠ ""
  | .jarr xs => !xs.isEmpty
  | .jobj kvs => !kvs.isEmpty

/-- `dict` lookup for a JSON object (`json.loads` keeps the last of
duplicate keys). -/
def lookupLast (kvs : List (String × JVal)) (k : String) : Option JVal :=
  match kvs with
  | [] => none
  | (k2, v) :: rest =>
    match lookupLast rest k with
    | some v2 => some v2
    | none => if k2 == k then some v else none

/-- Python `k in data` for a JSON object. -/
def hasKeyJ (kvs : List (String × JVal)) (k : String) : Bool :=
  kvs.any (fun p => p.1 == k)

/-- `((data.get("context") or {}).get("lang")) or None`: a falsy context
is replaced by `{}`; a truthy non-dict context has no `.get` and raises
`AttributeError`; a falsy lang collapses to `None`. -/
def ctxLang (kvs : List (String × JVal)) : Except PyErr (Option JVal) :=
  let ctx := match lookupLast kvs "context" with
    | some v => if jtruthy v then v else JVal.jobj []
    | none => JVal.jobj []
  match ctx with
  | .jobj ckvs =>
    .ok (match lookupLast ckvs "lang" with
      | some v => if jtruthy v then some v else none
      | none => none)
  | _ => .error .attributeError

/-- `dict.get(key, default)` over an association-list literal. -/
def dictGetD (d : List (String × List String)) (k : String)
    (dflt : List String) : List String :=
  match d with
  | [] => dflt
  | (k2, v) :: rest => if k == k2 then v else dictGetD rest k dflt

/-- `_guess_lang_from_findings` (identical in both variants): first
recognised file-extension group wins. -/
def guess_lang_from_findings : List Finding → Option String
  | [] => none
  | f :: rest =>
    let fname := pyLower f.file
    if pyEndsWith fname ".cpp" || pyEndsWith fname ".cc" || pyEndsWith fname ".cxx" ||
        pyEndsWith fname ".hpp" || pyEndsWith fname ".h" || pyEndsWith fname ".c" then
      some "cpp"
    else if pyEndsWith fname ".py" then some "python"
    else if pyEndsWith fname ".ts" || pyEndsWith fname ".tsx" ||
        pyEndsWith fname ".js" || pyEndsWith fname ".jsx" then some "typescript"
    else guess_lang_from_findings rest

namespace AgentPy

/-- `re.finditer` results of the gcc/clang pattern of `src/agent/agent.py`. -/
def fam1 (t : String) : List RawMatch :=
  Rx.finditerAnch Rx.p1a_matchAt (t.length + 1) t.toList true

/-- `re.finditer` results of the traceback pattern of `src/agent/agent.py`. -/
def fam2 (t : String) : List RawMatch :=
  Rx.finditerFree Rx.p2a_matchAt (t.length + 1) t.toList

/-- `re.finditer` results of the tsc pattern (both variants). -/
def fam3 (t : String) : List RawMatch :=
  Rx.finditerFree Rx.p3_matchAt (t.length + 1) t.toList

/-- The structured-pattern portion of `_extract_findings`
(`src/agent/agent.py`, lines 133-152). -/
def structured_findings (t : String) : List Finding :=
  runFamilies [fam1 t, fam2 t, fam3 t] []

/-- `_extract_findings` of `src/agent/agent.py` (lines 133-160).  The
`lang_hint` parameter of the source is never read by the body and is
omitted here. -/
def extract_findings (t : String) : List Finding :=
  let findings := structured_findings t
  if findings.isEmpty then kwFallback t else findings

/-- `_extract_findings` of `src/agent/agent.py` applied to an optional
(`str | None`) log text: the body immediately calls
`pat.finditer(log_text)`, and `re.finditer` raises `TypeError` on `None`
(this variant has no `or ""` guard). -/
def extract_findings_opt : Option String → Except PyErr (List Finding)
  | none => .error .typeError
  | some s => .ok (extract_findings s)

end AgentPy

namespace ChaosPy

/-- `re.finditer` results of the gcc/clang pattern of the Chaos variant. -/
def fam1 (t : String) : List RawMatch :=
  Rx.finditerAnch Rx.p1c_matchAt (t.length + 1) t.toList true

/-- `re.finditer` results of the traceback pattern of the Chaos variant
(named `file`/`line` groups). -/
def fam2 (t : String) : List RawMatch :=
  Rx.finditerFree Rx.p2c_matchAt (t.length + 1) t.toList

/-- `re.finditer` results of the tsc pattern (identical to the agent
variant). -/
def fam3 (t : String) : List RawMatch :=
  Rx.finditerFree Rx.p3_matchAt (t.length + 1) t.toList

/-- The structured-pattern portion of `_extract_findings`
(`src/Chaos Reviewer/Agent.py`, lines 129-148). -/
def structured_findings (t : String) : List Finding :=
  runFamilies [fam1 t, fam2 t, fam3 t] []

/-- `_extract_findings` of `src/Chaos Reviewer/Agent.py` (lines 129-156)
on a string input.  The unused `lang_hint` parameter is omitted. -/
def extract_findings (t : String) : List Finding :=
  let findings := structured_findings t
  if findings.isEmpty then kwFallback t else findings

/-- `_extract_findings` of the Chaos variant on an optional input: every
use of the argument is guarded by `(log_text or "")`, so `None` behaves
like the empty string. -/
def extract_findings_opt (o : Option String) : List Finding :=
  extract_findings (o.getD "")

end ChaosPy

namespace AgentPy

/-- `QUIPS_BRAINROT["cpp"]` of `src/agent/agent.py`. -/
def QUIPS_cpp : List String := [
  "Ohio code moment: missing return cooked the build.",
  "Ballerina Cappuccina pirouetted away with your semicolons.",
  "6-7… and the function dipped before returning. Skibidi no return.",
  "Control path NPC’d out. Add a return, blud.",
  "Cooked path. Low taper fade your logic and return something, fr."]

/-- `QUIPS_BRAINROT["python"]` of `src/agent/agent.py`.  The source list
has a missing comma after the `Tralalero` entry, so Python's implicit
string-literal concatenation fuses it with the following `Cringe None
bug` entry: the pool really has four elements. -/
def QUIPS_python : List String := [
  "Traceback doing doom scrolling. Add the check, keep it sigma.",
  "Bombombini Gusini says add that return, fr.",
  "Tralalero Tralala stomping the bug with Nike on.Cringe None bug. Did you pray today? Add a guard.",
  "Sussy exception arc — tighten that branch, biggest bird style."]

/-- `QUIPS_BRAINROT["typescript"]` of `src/agent/agent.py`. -/
def QUIPS_typescript : List String := [
  "Types won’t glaze themselves — narrow it, gigachad dev.",
  "TS said ‘string’, you gave ‘number’. Ohio assign, fr.",
  "Rizz up the types: refine that union, shmlawg.",
  "Ballerina Cappuccina pirouetted away with your semicolons.",
  "Bombombini Gusini says add that return, fr.",
  "Tralalero Tralala stomping the bug with Nike on.",
  "Chimpanzini Bananini approved the patch diff."]

/-- `QUIPS_BRAINROT["default"]` of `src/agent/agent.py`. -/
def QUIPS_default : List String := [
  "Cooked build. Not the mosquito again.",
  "Goofy ahh pipeline crashed out — apply the fix and mew on.",
  "Put the fries in the bag… and the return in the function.",
  "Goated with the sauce once tests pass, blud.",
  "Skibidi",
  "Sigma",
  "Chad",
  "Gigachad",
  "Fine Shyt – work hard"]

/-- `QUIPS_BRAINROT["italian"]` of `src/agent/agent.py`. -/
def QUIPS_italian : List String := [
  "Ballerina Cappuccina pirouetted away with your semicolons.",
  "Bombombini Gusini says add that return, fr.",
  "Tralalero Tralala stomping the bug with Nike on.",
  "Chimpanzini Bananini approved the patch diff."]

/-- `QUIPS_BRAINROT["basic"]` of `src/agent/agent.py`. -/
def QUIPS_basic : List String := ["Negative Aura"]

/-- The `QUIPS_BRAINROT` dictionary of `src/agent/agent.py`. -/
def QUIPS_BRAINROT : List (String × List String) := [
  ("cpp", QUIPS_cpp), ("python", QUIPS_python),
  ("typescript", QUIPS_typescript), ("default", QUIPS_default),
  ("italian", QUIPS_italian), ("basic", QUIPS_basic)]

/-- `_brainrot_quip_raw(lang, basic)` of `src/agent/agent.py`.  `mix`
models the `random.random() < 0.25` draw and `pick` the `random.choice`
index.  The `lang` argument is a JSON value because the chat handler can
pass a value taken verbatim from the inbound envelope;
`(lang or "").lower()` raises `AttributeError` on a truthy non-string
(only when `basic` is false — the basic branch returns first). -/
def brainrot_quip_raw (lang : Option JVal) (basic : Bool) (mix : Bool)
    (pick : Nat) : Except PyErr String :=
  if basic then .ok (nthMod QUIPS_basic pick)
  else
    let key? : Except PyErr String := match lang with
      | none => .ok ""
      | some v =>
        if jtruthy v then
          match v with
          | .jstr s => .ok (pyLower s)
          | _ => .error .attributeError
        else .ok ""
    match key? with
    | .error e => .error e
    | .ok key =>
      let pool := dictGetD QUIPS_BRAINROT key QUIPS_default
      let picks := pool ++ (if mix then QUIPS_italian else [])
      .ok (nthMod picks pick)

/-- `_micro_fix_suggestion` of `src/agent/agent.py` (lines 229-245).  The
ASI call is modelled by the oracle parameter `llm` (`none` when `LLM_OK`
is false, the request fails, or the provider reply was falsy — in each of
those cases the function returns `None`). -/
def micro_fix_suggestion (llm : Option String) (findings : List Finding) :
    Option String :=
  if findings.isEmpty then none
  else
    match llm with
    | some r => if r ≠ "" then some r else none
    | none => none

/-- `_concise_fix_or_summary` of `src/agent/agent.py` (lines 248-271).
The `lang` parameter of the source is never read and is omitted.  Note
that when the generative tier answers, the location is prepended
unconditionally — there is no `startswith` guard in this variant. -/
def concise_fix_or_summary (llm : Option String) (findings : List Finding) :
    String :=
  match micro_fix_suggestion llm findings with
  | some fix =>
    let f0 := findings.headD ⟨"", 0, ""⟩
    let loc := if f0.file ≠ "" && f0.line ≠ 0 then
        f0.file ++ ":" ++ natToStr f0.line else ""
    if loc ≠ "" then loc ++ " — " ++ fix else fix
  | none =>
    let f0 := findings.headD ⟨"", 0, ""⟩
    let msg := pyLower f0.msg
    let loc := if f0.file ≠ "" && f0.line ≠ 0 then
        f0.file ++ ":" ++ natToStr f0.line else ""
    let tip :=
      if containsSub msg "control reaches end of non-void function" then
        "add a return on all paths (e.g., return <value>;)"
      else if containsSub msg "undefined reference" || containsSub msg "linker" then
        "link missing object/library or provide the definition"
      else if containsSub msg "not defined" || containsSub msg "nameerror" then
        "define/import the symbol before use"
      else if containsSub msg "type mismatch" || containsSub msg "cannot convert" then
        "adjust the type/cast or the function signature"
      else if containsSub msg "assert" || containsSub msg "failed" then
        "update precondition or fix logic to satisfy the assertion"
      else "fix the first reported error; later ones cascade"
    let base := if loc ≠ "" then loc ++ " — " ++ tip else tip
    pyStrip (collapseWs base)

end AgentPy

namespace ChaosPy

/-- `QUIPS_BRAINROT["cpp"]` of the Chaos variant. -/
def QUIPS_cpp : List String := [
  "Ohio code moment: missing return cooked the build.",
  "6-7… and the function dipped before returning. Skibidi no return.",
  "Control path NPC’d out. Add a return, blud.",
  "Cooked path. Low taper fade your logic and return something, fr."]

/-- `QUIPS_BRAINROT["python"]` of the Chaos variant. -/
def QUIPS_python : List String := [
  "Traceback doing doom scrolling. Add the check, keep it sigma.",
  "Cringe None bug. Did you pray today? Add a guard.",
  "Sussy exception arc — tighten that branch, biggest bird style."]

/-- `QUIPS_BRAINROT["typescript"]` of the Chaos variant. -/
def QUIPS_typescript : List String := [
  "Types won’t glaze themselves — narrow it, gigachad dev.",
  "TS said ‘string’, you gave ‘number’. Ohio assign, fr.",
  "Rizz up the types: refine that union, shmlawg."]

/-- `QUIPS_BRAINROT["default"]` of the Chaos variant. -/
def QUIPS_default : List String := [
  "Cooked build. Not the mosquito again.",
  "Goofy ahh pipeline crashed out — apply the fix and mew on.",
  "Put the fries in the bag… and the return in the function.",
  "Goated with the sauce once tests pass, blud.",
  "Skibidi",
  "Sigma",
  "Chad",
  "Gigachad",
  "Fine Shyt – work hard"]

/-- `QUIPS_BRAINROT["italian"]` of the Chaos variant. -/
def QUIPS_italian : List String := [
  "Ballerina Cappuccina pirouetted away with your semicolons.",
  "Bombombini Gusini says add that return, fr.",
  "Tralalero Tralala stomping the bug with Nike on.",
  "Chimpanzini Bananini approved the patch diff."]

/-- `QUIPS_BRAINROT["basic"]` of the Chaos variant. -/
def QUIPS_basic : List String := ["Negative Aura"]

/-- The `QUIPS_BRAINROT` dictionary of the Chaos variant. -/
def QUIPS_BRAINROT : List (String × List String) := [
  ("cpp", QUIPS_cpp), ("python", QUIPS_python),
  ("typescript", QUIPS_typescript), ("default", QUIPS_default),
  ("italian", QUIPS_italian), ("basic", QUIPS_basic)]

/-- `_brainrot_quip_raw(lang, basic)` of the Chaos variant (same body as
the agent variant, different tables). -/
def brainrot_quip_raw (lang : Option JVal) (basic : Bool) (mix : Bool)
    (pick : Nat) : Except PyErr String :=
  if basic then .ok (nthMod QUIPS_basic pick)
  else
    let key? : Except PyErr String := match lang with
      | none => .ok ""
      | some v =>
        if jtruthy v then
          match v with
          | .jstr s => .ok (pyLower s)
          | _ => .error .attributeError
        else .ok ""
    match key? with
    | .error e => .error e
    | .ok key =>
      let pool := dictGetD QUIPS_BRAINROT key QUIPS_default
      let picks := pool ++ (if mix then QUIPS_italian else [])
      .ok (nthMod picks pick)

/-- `_llm_one_liner` of the Chaos variant (lines 207-243).  The two
provider tiers are the oracle parameters `asi` (primary, `none` when the
key is unset, the call raised, or nothing came back) and `free` (local
fallback).  A falsy primary reply falls through to the secondary; a
truthy final reply is stripped, else the result is `None`.  The
`BRAINROT` toggle only changes the prompt text sent to the oracle. -/
def llm_one_liner (asi free : Option String) (findings : List Finding) :
    Option String :=
  if findings.isEmpty then none
  else
    let reply := match asi with
      | some r => if r ≠ "" then some r else free
      | none => free
    match reply with
    | some r => if r ≠ "" then some (pyStrip r) else none
    | none => none

/-- `_llm_solution_text` of the Chaos variant (lines 245-282): same tier
cascade, then whitespace normalisation of the stripped reply, a hard
truncation to 350 characters and an ellipsis appended exactly when the
truncation dropped something; `None` when both tiers fail.  The unused
`lang` flows only into the prompt and is omitted. -/
def llm_solution_text (asi free : Option String) (findings : List Finding) :
    Option String :=
  if findings.isEmpty then none
  else
    let reply := match asi with
      | some r => if r ≠ "" then some r else free
      | none => free
    match reply with
    | some r =>
      if r ≠ "" then
        let text := collapseWs (pyStrip r)
        some (pyTake text 350 ++ (if 350 < text.length then "…" else ""))
      else none
    | none => none

/-- The heuristic (`else`) branch of the Chaos `_concise_fix_or_summary`
(lines 294-331): the ordered substring table over the lowercased top
message, producing `f"{roast} {tip}"` with the location prepended when
available. -/
def heuristic_fix (findings : List Finding) : String :=
  let f0 := findings.headD ⟨"", 0, ""⟩
  let msg := pyLower f0.msg
  let loc := if f0.file ≠ "" && f0.line ≠ 0 then
      f0.file ++ ":" ++ natToStr f0.line else ""
  let rt : String × String :=
    if containsSub msg "zerodivisionerror" || containsSub msg "division by zero" then
      ("💀 math said ‘nah’ fr fr —", "add a divisor==0 guard before the divide.")
    else if containsSub msg "control reaches end of non-void" then
      ("😭 function ghosted the return —", "ensure every path returns a value.")
    else if containsSub msg "undefined reference" || containsSub msg "ld returned 1 exit" ||
        containsSub msg "linker" then
      ("🤡 linker cooked —", "link missing obj/lib or implement the symbol.")
    else if containsSub msg "modulenotfounderror" then
      ("📦 not installed, bestie —", "pip install it / add to requirements.txt.")
    else if containsSub msg "cannot import name" then
      ("🔀 import beef —", "use the moved symbol or pin compatible versions.")
    else if containsSub msg "nonetype" ||
        (containsSub msg "attributeerror" && containsSub msg "none") then
      ("💀 null vibes —", "guard for None or ensure the factory returns an instance.")
    else if containsSub msg "not defined" || containsSub msg "nameerror" then
      ("🧠 forgot the symbol —", "define/import it before use.")
    else if containsSub msg "type mismatch" || containsSub msg "cannot convert" ||
        containsSub msg "typeerror" then
      ("🎭 types beefing —", "cast/adjust signature or fix callsite type.")
    else if containsSub msg "assert" || containsSub msg "failed" then
      ("🔥 assertion said ‘cap’ —", "fix the logic or update precondition.")
    else ("🧩 first error is the boss —", "fix the top one; others will fall in line.")
  let line := rt.1 ++ " " ++ rt.2
  if loc ≠ "" then loc ++ " — " ++ line else line

/-- `_concise_fix_or_summary` of the Chaos variant (lines 284-331).  The
generative answer gets the location prepended only when it does not
already start (case-insensitively) with `"{file}:{line}"`. -/
def concise_fix_or_summary (asi free : Option String)
    (findings : List Finding) : String :=
  match llm_one_liner asi free findings with
  | some fix =>
    if fix ≠ "" then
      let f0 := findings.headD ⟨"", 0, ""⟩
      let loc := if f0.file ≠ "" && f0.line ≠ 0 then
          f0.file ++ ":" ++ natToStr f0.line else ""
      if loc ≠ "" && !(pyStartsWith (pyLower fix) (pyLower loc)) then
        loc ++ " — " ++ fix
      else fix
    else heuristic_fix findings
  | none => heuristic_fix findings

end ChaosPy

namespace Webhook

/-- `QUIPS["cpp"]` of `src/agent/webhook.py`. -/
def QUIPS_cpp : List String := [
  "Ohio code moment: missing return cooked the build.",
  "6-7… and the function dipped before returning. Skibidi no return.",
  "Control path NPC’d out. Add a return, blud.",
  "Cooked path. Low taper fade your logic and return something, fr."]

/-- `QUIPS["python"]` of `src/agent/webhook.py`. -/
def QUIPS_python : List String := [
  "Traceback doing doom scrolling. Add the check, keep it sigma.",
  "Cringe None bug. Did you pray today? Add a guard.",
  "Sussy exception arc — tighten that branch, biggest bird style."]

/-- `QUIPS["typescript"]` of `src/agent/webhook.py`. -/
def QUIPS_typescript : List String := [
  "Types won’t glaze themselves — narrow it, gigachad dev.",
  "TS said ‘string’, you gave ‘number’. Ohio assign, fr.",
  "Rizz up the types: refine that union, shmlawg."]

/-- `QUIPS["default"]` of `src/agent/webhook.py`. -/
def QUIPS_default : List String := [
  "Cooked build. Not the mosquito again.",
  "Goofy ahh pipeline crashed out — apply the fix and mew on.",
  "Put the fries in the bag… and the return in the function.",
  "Goated with the sauce once tests pass, blud.",
  "Skibidi",
  "Sigma",
  "Chad",
  "Gigachad",
  "Fine Shyt – work hard"]

/-- `QUIPS["basic"]` of `src/agent/webhook.py` (the long form). -/
def QUIPS_basic : List String := [
  "Negative Aura – A made-up term used to describe someone with a bad vibe or uncool energy. When someone loses so many aura points that they’re put in the negative, then they have negative aura."]

/-- The `QUIPS` dictionary of `src/agent/webhook.py`. -/
def QUIPS : List (String × List String) := [
  ("cpp", QUIPS_cpp), ("python", QUIPS_python),
  ("typescript", QUIPS_typescript), ("default", QUIPS_default),
  ("basic", QUIPS_basic)]

/-- The `ITALIAN` list of `src/agent/webhook.py`. -/
def ITALIAN : List String := [
  "Ballerina Cappuccina pirouetted away with your semicolons.",
  "Bombombini Gusini says add that return, fr.",
  "Tralalero Tralala stomping the bug with Nike on.",
  "Chimpanzini Bananini approved the patch diff."]

/-- `quip(lang, basic, spice)` of `src/agent/webhook.py` (lines 107-113):
`mix` models the `random.random() < spice` draw. -/
def quip (lang : String) (basic : Bool) (mix : Bool) (pick : Nat) : String :=
  if basic then nthMod QUIPS_basic pick
  else
    let pool := dictGetD QUIPS lang QUIPS_default
    let pool2 := if mix then pool ++ ITALIAN else pool
    nthMod pool2 pick

end Webhook

/-! Intent detectors: Boolean `re.search` for the case-insensitive praise
and greeting patterns.  For a Boolean search, a match exists iff some
position admits some alternative with word boundaries on both sides, so
alternation order and leftmost priority are irrelevant. -/

/-- The trailing `\b` after an alternative that ends in a word
character. -/
def endBdry : List Char → Bool
  | [] => true
  | c :: _ => !isWordC c

/-- A literal alternative followed by `\b`. -/
def litBdry (lit : String) (cs : List Char) : Bool :=
  match Rx.expectStr lit.toList cs with
  | some r => endBdry r
  | none => false

/-- The `you(\s*are|\'re)? (good|great|amazing|awesome|goat|goated)`
alternative of `_PRAISE_PAT` at the current position (lowercased
input). -/
def praiseYouAt (cs : List Char) : Bool :=
  match Rx.expectStr "you".toList cs with
  | none => false
  | some r =>
    let cand1 : Option (List Char) := Rx.expectStr "are".toList (r.dropWhile isSpaceC)
    let cand2 : Option (List Char) := Rx.expectStr "\x27re".toList r
    let cands := ([cand1, cand2, some r]).filterMap id
    cands.any fun r3 =>
      match r3 with
      | ' ' :: r4 =>
        ["good", "great", "amazing", "awesome", "goat", "goated"].any
          (fun a => litBdry a r4)
      | _ => false

/-- `_PRAISE_PAT` alternation
`\b(thanks|thank you|ty|appreciate|you(\s*are|\'re)? (...))\b` at the
current position (lowercased input; every alternative starts with a word
character, so the caller checks the leading boundary). -/
def praiseAt (cs : List Char) : Bool :=
  litBdry "thanks" cs || litBdry "thank you" cs || litBdry "ty" cs ||
  litBdry "appreciate" cs || praiseYouAt cs

/-- The `good (morning|afternoon|evening)` alternative of `_GREET_PAT`. -/
def greetGoodAt (cs : List Char) : Bool :=
  match Rx.expectStr "good ".toList cs with
  | none => false
  | some r =>
    ["morning", "afternoon", "evening"].any (fun a => litBdry a r)

/-- The `what\'?s up` alternative of `_GREET_PAT`. -/
def greetWhatsAt (cs : List Char) : Bool :=
  match Rx.expectStr "what".toList cs with
  | none => false
  | some r =>
    let r2 := match r with
      | '\x27' :: t => t
      | _ => r
    litBdry "s up" r2

/-- `_GREET_PAT` alternation
`\b(hi|hello|hey|yo|sup|hola|namaste|what\'?s up|gm|good (...))\b` at the
current position (lowercased input). -/
def greetAt (cs : List Char) : Bool :=
  litBdry "hi" cs || litBdry "hello" cs || litBdry "hey" cs ||
  litBdry "yo" cs || litBdry "sup" cs || litBdry "hola" cs ||
  litBdry "namaste" cs || greetWhatsAt cs || litBdry "gm" cs ||
  greetGoodAt cs

/-- Scan all positions with the leading-`\b` state (true iff the previous
character is absent or a non-word character). -/
def scanBdry (alt : List Char → Bool) : Bool → List Char → Bool
  | _, [] => false
  | atBdry, c :: t => (atBdry && alt (c :: t)) || scanBdry alt (!isWordC c) t

/-- `_PRAISE_PAT.search(text)` as a Boolean (identical pattern in both
variants). -/
def praiseSearch (s : String) : Bool := scanBdry praiseAt true (pyLower s).toList

/-- `_GREET_PAT.search(text)` as a Boolean (identical pattern in both
variants). -/
def greetSearch (s : String) : Bool := scanBdry greetAt true (pyLower s).toList

namespace AgentPy

/-- `data.get("log_tail") or ""` as handed to `_extract_findings` in
`src/agent/agent.py`: the regex engine then raises `TypeError` on a
truthy non-string value. -/
def logTailStr (kvs : List (String × JVal)) : Except PyErr String :=
  let lt := match lookupLast kvs "log_tail" with
    | some v => if jtruthy v then v else JVal.jstr ""
    | none => JVal.jstr ""
  match lt with
  | .jstr s => .ok s
  | _ => .error .typeError

/-- The plain-text triage tail of `on_chat_or_review`
(`src/agent/agent.py`, lines 337-355).  The final greeting branch is
`if _GREET_PAT.search(text) or True:`, i.e. unconditional. -/
def plain_triage (text : String) (llm : Option String) (mix : Bool)
    (pick : Nat) : Except PyErr (Option (String × String)) := do
  let findings := extract_findings text
  if findings.isEmpty then do
    let q ← brainrot_quip_raw none false mix pick
    return some ("shut your b*tch *ss up and provide the error", q)
  else do
    let lang := (guess_lang_from_findings findings).map JVal.jstr
    let line1 := concise_fix_or_summary llm findings
    let basic := (findings.headD ⟨"", 0, ""⟩).file == "(unknown)"
    let q ← brainrot_quip_raw lang basic mix pick
    return some (line1, q)

/-- `on_chat_or_review` of `src/agent/agent.py` (lines 287-355) for a
non-session-start message, as a function from the collected message text
to the ordered pair of reply bubbles (`none` = empty text, no reply).
`llm` is the generation-oracle outcome, `mix`/`pick` the randomness of
the quip draw of whichever branch is taken.  Acknowledgement messages and
the once-per-sender greeting are transport concerns outside the model.
This definition is the JSON-envelope dispatch on the `json.loads`
outcome; `on_chat_or_review` below is the handler entry. -/
def dispatch (parsed : Option JVal) (text : String) (llm : Option String)
    (mix : Bool) (pick : Nat) : Except PyErr (Option (String × String)) :=
  match parsed with
  | some (.jobj kvs) =>
    if hasKeyJ kvs "log_tail" then do
      let lang0 ← ctxLang kvs
      let lt ← logTailStr kvs
      let findings := extract_findings lt
      let lang := match lang0 with
        | some v => some v
        | none => (guess_lang_from_findings findings).map JVal.jstr
      if findings.isEmpty then do
        let q ← brainrot_quip_raw none false mix pick
        return some ("shut your b*tch *ss up and provide the error", q)
      else do
        let line1 := concise_fix_or_summary llm findings
        let basic := (findings.headD ⟨"", 0, ""⟩).file == "(unknown)"
        let q ← brainrot_quip_raw lang basic mix pick
        return some (line1, q)
    else plain_triage text llm mix pick
  | _ => plain_triage text llm mix pick

/-- `on_chat_or_review` of `src/agent/agent.py` (lines 287-355): strip,
empty-text no-op, praise short-circuit, then the JSON/plain dispatch. -/
def on_chat_or_review (text0 : String) (llm : Option String) (mix : Bool)
    (pick : Nat) : Except PyErr (Option (String × String)) :=
  let text := pyStrip text0
  if text = "" then .ok none
  else if praiseSearch text then do
    let q ← brainrot_quip_raw none false mix pick
    return some ("u be glazing me brahh", q)
  else dispatch (jparse text) text llm mix pick

end AgentPy

/-- `int(x or 0)` on an optional JSON value: falsy → `0`; ints pass
through; `int(True) == 1`; a numeric string parses (optional sign,
surrounding whitespace), a non-numeric string raises `ValueError`;
lists/dicts raise `TypeError`. -/
def pyIntJ : Option JVal → Except PyErr Int
  | none => .ok 0
  | some v =>
    if jtruthy v then
      match v with
      | .jnum n => .ok n
      | .jbool _ => .ok 1
      | .jstr s =>
        let cs := (pyStrip s).toList
        let p : Bool × List Char := match cs with
          | '-' :: t => (true, t)
          | '+' :: t => (false, t)
          | _ => (false, cs)
        if !p.2.isEmpty && p.2.all isDigitC then
          .ok (if p.1 then -(Int.ofNat (digitsToNat p.2)) else Int.ofNat (digitsToNat p.2))
        else .error .valueError
      | _ => .error .typeError
    else .ok 0

namespace ChaosPy

/-- `(data.get(key) or "").strip()` in the Chaos variant: a truthy
non-string value has no `.strip` and raises `AttributeError`. -/
def getStrStripped (kvs : List (String × JVal)) (k : String) :
    Except PyErr String :=
  let v0 := match lookupLast kvs k with
    | some v => if jtruthy v then v else JVal.jstr ""
    | none => JVal.jstr ""
  match v0 with
  | .jstr s => .ok (pyStrip s)
  | _ => .error .attributeError

/-- Observable outcome of one `_poll_gist_requests` cycle: the final
value of the `_last_seen_ts["ts"]` watermark (assigned right after a new
timestamp is parsed, before any reply is computed or posted) and either
the response payload handed to `_gist_put_file` (`ts` plus the two
lines; `none` when the cycle bailed out before responding) or the
runtime error the rest of the body raised. -/
structure PollOutcome where
  lastSeen : Int
  result : Except PyErr (Option (Int × List String))
deriving Repr

/-- Reply construction of `_poll_gist_requests` after the watermark
update (`src/Chaos Reviewer/Agent.py`, lines 553-587). -/
def pollBody (kvs : List (String × JVal)) (asi free asi2 free2 : Option String)
    (mix : Bool) (pick : Nat) (now : Int) :
    Except PyErr (Int × List String) := do
  let lang0 ← ctxLang kvs
  let log_tail ← getStrStripped kvs "log_tail"
  let text_alt ← getStrStripped kvs "text"
  if log_tail ≠ "" then
    let findings := extract_findings log_tail
    let lang := match lang0 with
      | some v => some v
      | none => (guess_lang_from_findings findings).map JVal.jstr
    if findings.isEmpty then do
      let q ← brainrot_quip_raw none false mix pick
      return (now, ["shut up and provide the error", q])
    else do
      let line1 := concise_fix_or_summary asi free findings
      let basic := (findings.headD ⟨"", 0, ""⟩).file == "(unknown)"
      let q ← brainrot_quip_raw lang basic mix pick
      let sol := llm_solution_text asi2 free2 findings
      return (now,
        [(match sol with
          | some s => line1 ++ "\nSolution: " ++ s
          | none => line1), q])
  else
    let txt := text_alt
    if greetSearch txt then do
      let q ← brainrot_quip_raw none false mix pick
      return (now, ["shut up and provide the error", q])
    else
      let findings := extract_findings txt
      if findings.isEmpty then do
        let q ← brainrot_quip_raw none false mix pick
        return (now, ["shut up and provide the error", q])
      else do
        let lang := (guess_lang_from_findings findings).map JVal.jstr
        let line1 := concise_fix_or_summary asi free findings
        let sol := llm_solution_text asi2 free2 findings
        let q ← brainrot_quip_raw lang false mix pick
        return (now,
          [(match sol with
            | some s => line1 ++ "\nSolution: " ++ s
            | none => line1), q])

/-- Posting step of `_poll_gist_requests`: wrap the computed payload (or
the runtime error the body raised) with the already-advanced watermark. -/
def pollRespond (ts : Int) : Except PyErr (Int × List String) → PollOutcome
  | .ok payload => ⟨ts, .ok (some payload)⟩
  | .error e => ⟨ts, .error e⟩

/-- Timestamp gate of `_poll_gist_requests`: a parse failure of
`int(data.get("ts") or 0)` raises; an old timestamp bails out; a new one
advances the watermark to `ts` and builds the reply. -/
def pollAfterTs (lastSeen : Int) (body : Except PyErr (Int × List String)) :
    Except PyErr Int → PollOutcome
  | .error e => ⟨lastSeen, .error e⟩
  | .ok ts =>
    if ts ≤ lastSeen then ⟨lastSeen, .ok none⟩
    else pollRespond ts body

/-- Dispatch of `_poll_gist_requests` on the `json.loads` outcome: a
parse failure returns silently (the bare `except`); a non-dict raises
`AttributeError` at `data.get`; a dict goes through the timestamp gate. -/
def pollDispatch (lastSeen : Int) (asi free asi2 free2 : Option String)
    (mix : Bool) (pick : Nat) (now : Int) : Option JVal → PollOutcome
  | some (.jobj kvs) =>
    pollAfterTs lastSeen (pollBody kvs asi free asi2 free2 mix pick now)
      (pyIntJ (lookupLast kvs "ts"))
  | none => ⟨lastSeen, .ok none⟩
  | some _ => ⟨lastSeen, .error .attributeError⟩

/-- `_poll_gist_requests` of the Chaos variant (lines 531-591), one timer
cycle.  `lastSeen` is the current watermark; `raw` the fetched request
file content (`none` = fetch failed or file missing); `asi/free` the
fix-tier oracles, `asi2/free2` the explanation-tier oracles; `mix`/`pick`
the quip randomness; `now` the `int(time.time())` stamp.  A bare
`except` swallows only the `json.loads` failure; `data.get` on a
non-dict raises.  The Boolean returned by `_gist_put_file` only gates a
log line, so delivery failure does not influence the outcome. -/
def poll_gist_requests (lastSeen : Int) (raw : Option String)
    (asi free asi2 free2 : Option String) (mix : Bool) (pick : Nat)
    (now : Int) : PollOutcome :=
  match raw with
  | none => ⟨lastSeen, .ok none⟩
  | some r =>
    if r = "" then ⟨lastSeen, .ok none⟩
    else pollDispatch lastSeen asi free asi2 free2 mix pick now (jparse r)

end ChaosPy

namespace AgentPy

/-- Union of all quip pools of `src/agent/agent.py`: the set of strings
the remark selector can ever emit. -/
def allQuips : List String :=
  QUIPS_cpp ++ QUIPS_python ++ QUIPS_typescript ++ QUIPS_default ++
    QUIPS_italian ++ QUIPS_basic

/-- The `context`/`lang` chain is traversable and yields a string or
nothing. -/
def langOkB : Except PyErr (Option JVal) → Bool
  | .ok none => true
  | .ok (some (.jstr _)) => true
  | _ => false

/-- The `log_tail` value is a string or falsy. -/
def logTailOkB : Except PyErr String → Bool
  | .ok _ => true
  | .error _ => false

/-- Envelope well-typedness on an already-parsed value. -/
def envelope_ok_core : Option JVal → Bool
  | some (.jobj kvs) =>
    if hasKeyJ kvs "log_tail" then
      langOkB (ctxLang kvs) && logTailOkB (logTailStr kvs)
    else true
  | _ => true

/-- Envelope well-typedness split on the parse outcome of `t`.  On a
successful parse the fields are checked; on a failed parse the text must
be demonstrably not JSON (`jsonImpossible`), so that the plain-text path
of the model is the path of the program as well — a text the conservative
`jparse` fails on but that opens like a JSON value (a real-number
envelope, a `\uXXXX` escape) is NOT accepted here, since `json.loads`
may parse it and the handler may then raise. -/
def envelope_okAt (t : String) : Option JVal → Bool
  | some v => envelope_ok_core (some v)
  | none => jsonImpossible t

/-- Well-typedness of the inbound JSON envelope fields actually read by
the agent chat handler: either the text parses (in the exact integer
fragment of `jparse`) and, when it is an object carrying `log_tail`, the
`context`/`lang` chain is traversable and yields a string (or nothing)
and `log_tail` itself is a string or falsy; or the text cannot be a JSON
document at all (its first non-blank character opens no JSON value), in
which case both program and model take the plain-text path. -/
def envelope_ok (t : String) : Bool := envelope_okAt t (jparse t)

end AgentPy

/-! ### Loop characterisations

The scanning loops of `_extract_findings` append one element at a time and
break as soon as the cap is reached, so they compute a `take` of the
concatenation of the per-family well-formed findings. -/

theorem addMatches_eq (ms : List RawMatch) :
    ∀ acc : List Finding, acc.length < 5 →
      addMatches ms acc = (acc ++ famValid ms).take 5 := by
  induction ms with
  | nil =>
    intro acc h
    simp [addMatches, famValid, List.take_of_length_le (Nat.le_of_lt h)]
  | cons m rest ih =>
    intro acc h
    cases hm : matchToFinding m with
    | none =>
      simp only [addMatches, hm]
      rw [if_neg (by omega)]
      rw [ih acc h]
      simp [famValid, List.filterMap_cons, hm]
    | some f =>
      simp only [addMatches, hm]
      by_cases h5 : 5 ≤ (acc ++ [f]).length
      · rw [if_pos h5]
        simp only [List.length_append, List.length_cons, List.length_nil] at h5
        have hlen : (acc ++ [f]).length = 5 := by simp; omega
        have hsplit : acc ++ famValid (m :: rest) =
            (acc ++ [f]) ++ famValid rest := by
          simp [famValid, List.filterMap_cons, hm]
        rw [hsplit, List.take_append_of_le_length (by omega),
          List.take_of_length_le (by omega)]
      · rw [if_neg h5]
        simp only [List.length_append, List.length_cons, List.length_nil] at h5
        rw [ih (acc ++ [f]) (by simp; omega)]
        simp [famValid, List.filterMap_cons, hm]

theorem runFamilies_eq (fams : List (List RawMatch)) :
    ∀ acc : List Finding, acc.length < 5 →
      runFamilies fams acc = (acc ++ fams.flatMap famValid).take 5 := by
  induction fams with
  | nil =>
    intro acc h
    simp [runFamilies, List.take_of_length_le (Nat.le_of_lt h)]
  | cons fam rest ih =>
    intro acc h
    simp only [runFamilies]
    rw [addMatches_eq fam acc h]
    by_cases h5 : 5 ≤ ((acc ++ famValid fam).take 5).length
    · rw [if_pos h5]
      have hlen5 : 5 ≤ (acc ++ famValid fam).length := by
        have := List.length_take 5 (acc ++ famValid fam)
        omega
      rw [List.flatMap_cons, ← List.append_assoc,
        List.take_append_of_le_length hlen5]
    · rw [if_neg h5]
      have hlt : (acc ++ famValid fam).length < 5 := by
        have := List.length_take 5 (acc ++ famValid fam)
        omega
      rw [List.take_of_length_le (Nat.le_of_lt hlt)]
      rw [ih (acc ++ famValid fam) hlt]
      rw [List.flatMap_cons, ← List.append_assoc]

theorem kwFallbackLoop_eq (lines : List String) :
    ∀ acc : List Finding, acc.length < 3 →
      kwFallbackLoop lines acc =
        (acc ++ (lines.filter kwHit).map
          (fun l => (⟨"(unknown)", 1, pyStrip l⟩ : Finding))).take 3 := by
  induction lines with
  | nil =>
    intro acc h
    simp [kwFallbackLoop, List.take_of_length_le (Nat.le_of_lt h)]
  | cons l rest ih =>
    intro acc h
    simp only [kwFallbackLoop]
    by_cases hk : kwHit l
    · rw [if_pos hk]
      by_cases h3 : 3 ≤ (acc ++ [(⟨"(unknown)", 1, pyStrip l⟩ : Finding)]).length
      · rw [if_pos h3]
        simp only [List.length_append, List.length_cons, List.length_nil] at h3
        have hsplit : acc ++ ((l :: rest).filter kwHit).map
            (fun l => (⟨"(unknown)", 1, pyStrip l⟩ : Finding)) =
            (acc ++ [(⟨"(unknown)", 1, pyStrip l⟩ : Finding)]) ++
              (rest.filter kwHit).map
                (fun l => (⟨"(unknown)", 1, pyStrip l⟩ : Finding)) := by
          simp [List.filter_cons_of_pos hk]
        rw [hsplit, List.take_append_of_le_length (by simp; omega),
          List.take_of_length_le (by simp; omega)]
      · rw [if_neg h3]
        simp only [List.length_append, List.length_cons, List.length_nil] at h3
        rw [ih _ (by simp; omega)]
        simp [List.filter_cons_of_pos hk]
    · rw [if_neg hk]
      rw [ih acc h]
      simp [List.filter_cons_of_neg hk]

/-! ### Well-formedness of findings -/

theorem matchToFinding_wf (m : RawMatch) (f : Finding)
    (h : matchToFinding m = some f) : f.file ≠ "" ∧ 1 ≤ f.line := by
  simp only [matchToFinding] at h
  split at h
  · rename_i hcond
    rw [Option.some.injEq] at h
    subst h
    rw [Bool.and_eq_true] at hcond
    exact ⟨of_decide_eq_true hcond.1,
      Nat.one_le_iff_ne_zero.mpr (of_decide_eq_true hcond.2)⟩
  · exact absurd h (by simp)

theorem take_merge_wf (v1 v2 v3 : List RawMatch) (f : Finding)
    (h : f ∈ (famValid v1 ++ famValid v2 ++ famValid v3).take 5) :
    f.file ≠ "" ∧ 1 ≤ f.line := by
  have h2 := List.take_subset 5 _ h
  simp only [List.mem_append, famValid] at h2
  rcases h2 with (hm | hm) | hm <;>
    · obtain ⟨m, -, hsome⟩ := List.mem_filterMap.mp hm
      exact matchToFinding_wf m f hsome

set_option maxRecDepth 4000 in
theorem kwFallback_wf (t : String) (f : Finding) (h : f ∈ kwFallback t) :
    f.file = "(unknown)" ∧ f.line = 1 := by
  unfold kwFallback at h
  rw [kwFallbackLoop_eq _ [] (by simp)] at h
  have h2 := List.take_subset 3 _ h
  simp only [List.nil_append, List.mem_map] at h2
  obtain ⟨l, -, hl⟩ := h2
  subst hl
  exact ⟨rfl, rfl⟩

theorem kwFallback_len (t : String) : (kwFallback t).length ≤ 3 := by
  unfold kwFallback
  rw [kwFallbackLoop_eq _ [] (by simp)]
  exact List.length_take_le 3 _

/-! ### Merge characterisation of the structured scan, per variant -/

theorem AgentPy.agent_structured_eq (t : String) :
    AgentPy.structured_findings t =
      (famValid (AgentPy.fam1 t) ++ famValid (AgentPy.fam2 t) ++
        famValid (AgentPy.fam3 t)).take 5 := by
  unfold AgentPy.structured_findings
  rw [runFamilies_eq _ [] (by simp)]
  simp [List.append_assoc]

theorem ChaosPy.chaos_structured_eq (t : String) :
    ChaosPy.structured_findings t =
      (famValid (ChaosPy.fam1 t) ++ famValid (ChaosPy.fam2 t) ++
        famValid (ChaosPy.fam3 t)).take 5 := by
  unfold ChaosPy.structured_findings
  rw [runFamilies_eq _ [] (by simp)]
  simp [List.append_assoc]

theorem AgentPy.agent_extract_eq (t : String) :
    AgentPy.extract_findings t =
      if (AgentPy.structured_findings t).isEmpty then kwFallback t
      else AgentPy.structured_findings t := rfl

theorem ChaosPy.chaos_extract_eq (t : String) :
    ChaosPy.extract_findings t =
      if (ChaosPy.structured_findings t).isEmpty then kwFallback t
      else ChaosPy.structured_findings t := rfl

/-! ### The agent-variant traceback family never yields a finding -/

theorem Rx.p2a_file_none (cs : List Char) (m : RawMatch) (rest : List Char)
    (h : Rx.p2a_matchAt cs = some (m, rest)) : m.file = none := by
  unfold Rx.p2a_matchAt at h
  cases hp : Rx.p2_parts true cs with
  | none => rw [hp] at h; exact absurd h (by simp)
  | some q =>
    rw [hp] at h
    obtain ⟨a, b, c, d⟩ := q
    simp only [Option.some.injEq, Prod.mk.injEq] at h
    obtain ⟨hm, -⟩ := h
    subst hm
    rfl

theorem matchToFinding_none_of_file_none (m : RawMatch) (h : m.file = none) :
    matchToFinding m = none := by
  simp only [matchToFinding, h, Option.getD_none]
  have hps : pyStrip "" = "" := rfl
  rw [hps]
  simp

theorem finditerFree_succ_some (mf : List Char → Option (RawMatch × List Char))
    (fuel : Nat) (cs : List Char) (r : RawMatch) (rest : List Char)
    (hm : mf cs = some (r, rest)) :
    Rx.finditerFree mf (fuel + 1) cs = r :: Rx.finditerFree mf fuel rest := by
  simp only [Rx.finditerFree, Rx.finditerStep, hm]

theorem finditerFree_succ_none (mf : List Char → Option (RawMatch × List Char))
    (fuel : Nat) (c : Char) (t : List Char) (hm : mf (c :: t) = none) :
    Rx.finditerFree mf (fuel + 1) (c :: t) = Rx.finditerFree mf fuel t := by
  simp only [Rx.finditerFree, Rx.finditerStep, hm]

theorem finditerFree_nil (mf : List Char → Option (RawMatch × List Char))
    (fuel : Nat) (hm : mf [] = none) :
    Rx.finditerFree mf fuel [] = [] := by
  cases fuel with
  | zero => rfl
  | succ n =>
    simp only [Rx.finditerFree, Rx.finditerStep, hm]

theorem finditerFree_all_file_none
    (mf : List Char → Option (RawMatch × List Char))
    (hmf : ∀ cs m rest, mf cs = some (m, rest) → m.file = none) :
    ∀ fuel cs m, m ∈ Rx.finditerFree mf fuel cs → m.file = none := by
  intro fuel
  induction fuel with
  | zero => intro cs m h; simp [Rx.finditerFree] at h
  | succ n ih =>
    intro cs m h
    cases hm : mf cs with
    | some p =>
      obtain ⟨r, rest⟩ := p
      rw [finditerFree_succ_some mf n cs r rest hm] at h
      cases List.mem_cons.mp h with
      | inl he => subst he; exact hmf cs m rest hm
      | inr hi => exact ih rest m hi
    | none =>
      cases cs with
      | nil => rw [finditerFree_nil mf (n + 1) hm] at h; simp at h
      | cons c t =>
        rw [finditerFree_succ_none mf n c t hm] at h
        exact ih t m h

theorem AgentPy.fam2_valid_empty (t : String) :
    famValid (AgentPy.fam2 t) = [] := by
  unfold famValid AgentPy.fam2
  rw [List.filterMap_eq_nil_iff]
  intro m hm
  exact matchToFinding_none_of_file_none m
    (finditerFree_all_file_none Rx.p2a_matchAt Rx.p2a_file_none _ _ m hm)

/-! ### Remark-selector membership -/

theorem nthAux_mem (xs : List String) : ∀ n, n < xs.length → nthAux xs n ∈ xs := by
  induction xs with
  | nil => intro n h; simp at h
  | cons x t ih =>
    intro n h
    cases n with
    | zero => simp [nthAux]
    | succ k =>
      have hk : k < t.length := by simpa using Nat.lt_of_succ_lt_succ h
      simp [nthAux, ih k hk]

theorem nthMod_mem (xs : List String) (pick : Nat) (h : xs ≠ []) :
    nthMod xs pick ∈ xs := by
  unfold nthMod
  exact nthAux_mem xs _ (Nat.mod_lt _ (List.length_pos.mpr h))

theorem dictGetD_mem_or (d : List (String × List String)) (k : String)
    (dflt : List String) :
    dictGetD d k dflt = dflt ∨ dictGetD d k dflt ∈ d.map (fun p => p.2) := by
  induction d with
  | nil => left; rfl
  | cons p rest ih =>
    obtain ⟨k2, v⟩ := p
    simp only [dictGetD]
    by_cases hk : k == k2
    · rw [if_pos hk]; right; simp
    · rw [if_neg hk]
      rcases ih with h1 | h2
      · left; exact h1
      · right; simp only [List.map_cons, List.mem_cons]; right; exact h2

theorem AgentPy.pool_sub_allQuips (q : String)
    (h : q ∈ AgentPy.QUIPS_cpp ∨ q ∈ AgentPy.QUIPS_python ∨
      q ∈ AgentPy.QUIPS_typescript ∨ q ∈ AgentPy.QUIPS_default ∨
      q ∈ AgentPy.QUIPS_italian ∨ q ∈ AgentPy.QUIPS_basic) :
    q ∈ AgentPy.allQuips := by
  unfold AgentPy.allQuips
  simp only [List.mem_append]
  tauto

theorem AgentPy.nonbasic_mem (key : String) (mix : Bool) (pick : Nat) :
    nthMod (dictGetD AgentPy.QUIPS_BRAINROT key AgentPy.QUIPS_default ++
      (if mix then AgentPy.QUIPS_italian else [])) pick ∈ AgentPy.allQuips := by
  have hextra : ∀ q ∈ (if mix then AgentPy.QUIPS_italian else []),
      q ∈ AgentPy.allQuips := by
    intro q hq
    by_cases hmx : mix
    · rw [if_pos hmx] at hq
      exact AgentPy.pool_sub_allQuips q (by tauto)
    · rw [if_neg hmx] at hq
      simp at hq
  have main : ∀ pool : List String, pool ≠ [] →
      (∀ q ∈ pool, q ∈ AgentPy.allQuips) →
      nthMod (pool ++ (if mix then AgentPy.QUIPS_italian else [])) pick ∈
        AgentPy.allQuips := by
    intro pool hne hsub
    have hmem := nthMod_mem (pool ++ (if mix then AgentPy.QUIPS_italian else []))
      pick (by simp [hne])
    rcases List.mem_append.mp hmem with hin | hin
    · exact hsub _ hin
    · exact hextra _ hin
  have hchar := dictGetD_mem_or AgentPy.QUIPS_BRAINROT key AgentPy.QUIPS_default
  have hcases : dictGetD AgentPy.QUIPS_BRAINROT key AgentPy.QUIPS_default =
        AgentPy.QUIPS_cpp ∨
      dictGetD AgentPy.QUIPS_BRAINROT key AgentPy.QUIPS_default =
        AgentPy.QUIPS_python ∨
      dictGetD AgentPy.QUIPS_BRAINROT key AgentPy.QUIPS_default =
        AgentPy.QUIPS_typescript ∨
      dictGetD AgentPy.QUIPS_BRAINROT key AgentPy.QUIPS_default =
        AgentPy.QUIPS_default ∨
      dictGetD AgentPy.QUIPS_BRAINROT key AgentPy.QUIPS_default =
        AgentPy.QUIPS_italian ∨
      dictGetD AgentPy.QUIPS_BRAINROT key AgentPy.QUIPS_default =
        AgentPy.QUIPS_basic := by
    rcases hchar with h1 | h2
    · tauto
    · simp only [AgentPy.QUIPS_BRAINROT, List.map_cons, List.map_nil,
        List.mem_cons, List.not_mem_nil, or_false] at h2
      tauto
  rcases hcases with h1 | h1 | h1 | h1 | h1 | h1 <;> rw [h1] <;>
    exact main _
      (by simp [AgentPy.QUIPS_cpp, AgentPy.QUIPS_python,
        AgentPy.QUIPS_typescript, AgentPy.QUIPS_default,
        AgentPy.QUIPS_italian, AgentPy.QUIPS_basic])
      (fun q hq => AgentPy.pool_sub_allQuips q (by tauto))

theorem AgentPy.quip_ok_mem (lang : Option JVal) (basic : Bool) (mix : Bool)
    (pick : Nat) (h : lang = none ∨ ∃ s, lang = some (JVal.jstr s)) :
    ∃ q, AgentPy.brainrot_quip_raw lang basic mix pick = .ok q ∧
      q ∈ AgentPy.allQuips := by
  by_cases hb : basic
  · subst hb
    refine ⟨nthMod AgentPy.QUIPS_basic pick, rfl, ?_⟩
    exact AgentPy.pool_sub_allQuips _
      (Or.inr (Or.inr (Or.inr (Or.inr (Or.inr
        (nthMod_mem _ _ (by simp [AgentPy.QUIPS_basic])))))))
  · rcases h with rfl | ⟨s, rfl⟩
    · refine ⟨_, ?_, AgentPy.nonbasic_mem "" mix pick⟩
      unfold AgentPy.brainrot_quip_raw
      rw [if_neg hb]
    · by_cases hts : jtruthy (JVal.jstr s) = true
      · refine ⟨_, ?_, AgentPy.nonbasic_mem (pyLower s) mix pick⟩
        unfold AgentPy.brainrot_quip_raw
        rw [if_neg hb]
        simp only [hts, if_true]
      · refine ⟨_, ?_, AgentPy.nonbasic_mem "" mix pick⟩
        unfold AgentPy.brainrot_quip_raw
        rw [if_neg hb]
        simp only [hts, if_false, Bool.false_eq_true]

/-! ## Claim theorems -/

/-- Claim C1, counterexample.  On a log that contains both a
compiler-style line and a type-checker line, `_extract_findings` of
`src/agent/agent.py` returns findings of BOTH families, not exactly the
findings of the first family that matched: the first-family result would
be `[⟨"a.c", 1, "x"⟩]`, but the function returns the merge. -/
theorem claim_C1_counterexample :
    famValid (AgentPy.fam1 "a.c:1: error: x\nb.ts(2,3): error TS1: y") =
      [⟨"a.c", 1, "x"⟩] ∧
    famValid (AgentPy.fam3 "a.c:1: error: x\nb.ts(2,3): error TS1: y") =
      [⟨"b.ts", 2, "y"⟩] ∧
    AgentPy.extract_findings "a.c:1: error: x\nb.ts(2,3): error TS1: y" =
      [⟨"a.c", 1, "x"⟩, ⟨"b.ts", 2, "y"⟩] ∧
    AgentPy.extract_findings "a.c:1: error: x\nb.ts(2,3): error TS1: y" ≠
      famValid (AgentPy.fam1 "a.c:1: error: x\nb.ts(2,3): error TS1: y") := by
  exact ⟨by decide, by decide, by decide, by decide⟩

/-- Claim C1 (amended): the structured scan does NOT stop at the first
family with a match — in both variants, `_extract_findings` returns the
concatenation of the well-formed findings of all three pattern families
in priority order, truncated to five, falling back to the keyword scan
only when that merge is empty. -/
theorem claim_C1_merge (t : String) :
    (AgentPy.extract_findings t =
      if ((famValid (AgentPy.fam1 t) ++ famValid (AgentPy.fam2 t) ++
            famValid (AgentPy.fam3 t)).take 5).isEmpty
      then kwFallback t
      else (famValid (AgentPy.fam1 t) ++ famValid (AgentPy.fam2 t) ++
            famValid (AgentPy.fam3 t)).take 5) ∧
    (ChaosPy.extract_findings t =
      if ((famValid (ChaosPy.fam1 t) ++ famValid (ChaosPy.fam2 t) ++
            famValid (ChaosPy.fam3 t)).take 5).isEmpty
      then kwFallback t
      else (famValid (ChaosPy.fam1 t) ++ famValid (ChaosPy.fam2 t) ++
            famValid (ChaosPy.fam3 t)).take 5) := by
  constructor
  · rw [AgentPy.agent_extract_eq, AgentPy.agent_structured_eq]
  · rw [ChaosPy.chaos_extract_eq, ChaosPy.chaos_structured_eq]

/-- Claim C2: every finding returned by `_extract_findings` (either
variant) has a non-empty `file` and `line ≥ 1`; the result never exceeds
five findings, and when the structured scan found nothing (the keyword
fallback) it never exceeds three. -/
theorem claim_C2 (t : String) :
    ((∀ f ∈ AgentPy.extract_findings t, f.file ≠ "" ∧ 1 ≤ f.line) ∧
      (AgentPy.extract_findings t).length ≤ 5 ∧
      (AgentPy.structured_findings t = [] →
        (AgentPy.extract_findings t).length ≤ 3)) ∧
    ((∀ f ∈ ChaosPy.extract_findings t, f.file ≠ "" ∧ 1 ≤ f.line) ∧
      (ChaosPy.extract_findings t).length ≤ 5 ∧
      (ChaosPy.structured_findings t = [] →
        (ChaosPy.extract_findings t).length ≤ 3)) := by
  constructor
  · refine ⟨?_, ?_, ?_⟩
    · intro f hf
      by_cases hc : (AgentPy.structured_findings t).isEmpty
      · rw [AgentPy.agent_extract_eq, if_pos hc] at hf
        rcases kwFallback_wf t f hf with ⟨h1, h2⟩
        refine ⟨by rw [h1]; decide, by omega⟩
      · rw [AgentPy.agent_extract_eq, if_neg hc, AgentPy.agent_structured_eq] at hf
        exact take_merge_wf _ _ _ f hf
    · by_cases hc : (AgentPy.structured_findings t).isEmpty
      · rw [AgentPy.agent_extract_eq, if_pos hc]
        have := kwFallback_len t
        omega
      · rw [AgentPy.agent_extract_eq, if_neg hc, AgentPy.agent_structured_eq]
        exact List.length_take_le 5 _
    · intro hemp
      have hc : (AgentPy.structured_findings t).isEmpty := by
        rw [hemp]; rfl
      rw [AgentPy.agent_extract_eq, if_pos hc]
      exact kwFallback_len t
  · refine ⟨?_, ?_, ?_⟩
    · intro f hf
      by_cases hc : (ChaosPy.structured_findings t).isEmpty
      · rw [ChaosPy.chaos_extract_eq, if_pos hc] at hf
        rcases kwFallback_wf t f hf with ⟨h1, h2⟩
        refine ⟨by rw [h1]; decide, by omega⟩
      · rw [ChaosPy.chaos_extract_eq, if_neg hc, ChaosPy.chaos_structured_eq] at hf
        exact take_merge_wf _ _ _ f hf
    · by_cases hc : (ChaosPy.structured_findings t).isEmpty
      · rw [ChaosPy.chaos_extract_eq, if_pos hc]
        have := kwFallback_len t
        omega
      · rw [ChaosPy.chaos_extract_eq, if_neg hc, ChaosPy.chaos_structured_eq]
        exact List.length_take_le 5 _
    · intro hemp
      have hc : (ChaosPy.structured_findings t).isEmpty := by
        rw [hemp]; rfl
      rw [ChaosPy.chaos_extract_eq, if_pos hc]
      exact kwFallback_len t

/-- Claim C2, witness: on a keyword-only log both variants stay within
the fallback cap of three. -/
theorem claim_C2_witness :
    (AgentPy.extract_findings "x failed").length ≤ 3 ∧
    (ChaosPy.extract_findings "x failed").length ≤ 3 :=
  ⟨(claim_C2 "x failed").1.2.2 (by decide),
   (claim_C2 "x failed").2.2.2 (by decide)⟩

/-- Claim C3, counterexample.  In `src/agent/agent.py`,
`_extract_findings(None, ...)` does not return an empty sequence: the
body immediately calls `pat.finditer(log_text)` with no `or ""` guard,
and `re.finditer` raises `TypeError` on `None`. -/
theorem claim_C3_counterexample :
    AgentPy.extract_findings_opt none = .error .typeError := rfl

/-- Claim C3 (amended): `extract("")` returns the empty sequence in both
variants, and `extract(None)` returns the empty sequence in the Chaos
variant (whose `(log_text or "")` guard absorbs `None`); the
`src/agent/agent.py` variant raises `TypeError` on `None`. -/
theorem claim_C3_amended :
    AgentPy.extract_findings "" = [] ∧
    AgentPy.extract_findings_opt (some "") = .ok [] ∧
    ChaosPy.extract_findings "" = [] ∧
    ChaosPy.extract_findings_opt none = [] ∧
    ChaosPy.extract_findings_opt (some "") = [] :=
  ⟨rfl, rfl, rfl, rfl, rfl⟩

/-- Claim C4, counterexample.  The fallback substring table of
`_concise_fix_or_summary` in `src/agent/agent.py` has NO missing-module
rule: with both generation tiers absent, a `ModuleNotFoundError`-style
top message falls through to the generic catch-all tip, not to a
deterministic "not installed" tip. -/
theorem claim_C4_counterexample :
    AgentPy.concise_fix_or_summary none
      [⟨"app.py", 1, "ModuleNotFoundError: No module named \x27requests\x27"⟩] =
      "app.py:1 — fix the first reported error; later ones cascade" ∧
    containsSub
      (AgentPy.concise_fix_or_summary none
        [⟨"app.py", 1, "ModuleNotFoundError: No module named \x27requests\x27"⟩])
      "not installed" = false := by
  exact ⟨by decide, by decide⟩

/-- Claim C4 (amended, Chaos variant): with both generation tiers absent
and a top message that contains `modulenotfounderror` (and none of the
earlier rules' substrings), the Chaos `_concise_fix_or_summary` fires the
missing-module rule of its fallback table — the deterministic
"not installed" tip — and `_llm_solution_text` returns `None`. -/
theorem claim_C4_chaos (f : Finding) (rest : List Finding)
    (h1 : containsSub (pyLower f.msg) "modulenotfounderror" = true)
    (h2 : containsSub (pyLower f.msg) "zerodivisionerror" = false)
    (h3 : containsSub (pyLower f.msg) "division by zero" = false)
    (h4 : containsSub (pyLower f.msg) "control reaches end of non-void" = false)
    (h5 : containsSub (pyLower f.msg) "undefined reference" = false)
    (h6 : containsSub (pyLower f.msg) "ld returned 1 exit" = false)
    (h7 : containsSub (pyLower f.msg) "linker" = false) :
    ChaosPy.concise_fix_or_summary none none (f :: rest) =
      (let loc := if f.file ≠ "" && f.line ≠ 0 then
          f.file ++ ":" ++ natToStr f.line else ""
       let line := "📦 not installed, bestie — pip install it / add to requirements.txt."
       if loc ≠ "" then loc ++ " — " ++ line else line) ∧
    ChaosPy.llm_solution_text none none (f :: rest) = none := by
  have hll : ChaosPy.llm_one_liner none none (f :: rest) = none := by
    unfold ChaosPy.llm_one_liner
    simp
  constructor
  · unfold ChaosPy.concise_fix_or_summary
    rw [hll]
    simp [ChaosPy.heuristic_fix, h1, h2, h3, h4, h5, h6, h7]
  · unfold ChaosPy.llm_solution_text
    simp

/-- Claim C4, witness: the amended claim evaluated on a concrete
`ModuleNotFoundError` finding. -/
theorem claim_C4_witness :
    ChaosPy.concise_fix_or_summary none none
      [⟨"app.py", 3, "ModuleNotFoundError: No module named \x27foo\x27"⟩] =
      "app.py:3 — 📦 not installed, bestie — pip install it / add to requirements.txt." ∧
    ChaosPy.llm_solution_text none none
      [⟨"app.py", 3, "ModuleNotFoundError: No module named \x27foo\x27"⟩] = none := by
  have h := claim_C4_chaos
    ⟨"app.py", 3, "ModuleNotFoundError: No module named \x27foo\x27"⟩ []
    (by decide) (by decide) (by decide) (by decide) (by decide) (by decide)
    (by decide)
  exact ⟨h.1.trans (by decide), h.2⟩

/-- Claim C5, counterexample.  `_concise_fix_or_summary` of
`src/agent/agent.py` has no `startswith` guard: when the generative tier
already returns a text beginning with the location prefix, the prefix is
prepended a second time. -/
theorem claim_C5_counterexample :
    AgentPy.concise_fix_or_summary (some "a.py:3 — add import foo")
      [⟨"a.py", 3, "NameError: name foo is not defined"⟩] =
      "a.py:3 — a.py:3 — add import foo" ∧
    AgentPy.concise_fix_or_summary (some "a.py:3 — add import foo")
      [⟨"a.py", 3, "NameError: name foo is not defined"⟩] ≠
      "a.py:3 — add import foo" := by
  exact ⟨by decide, by decide⟩

/-- Claim C5 (amended, Chaos variant): when the generative tier returns a
usable text `r` and the top finding has a truthy file and line, the Chaos
`_concise_fix_or_summary` prepends `"{file}:{line} — "` exactly when the
stripped text does not already start, case-insensitively, with
`"{file}:{line}"`; in particular a text already carrying the prefix is
returned unchanged (never double-prefixed).  The `src/agent/agent.py`
variant always prepends (see the counterexample). -/
theorem claim_C5_chaos (r : String) (f : Finding) (rest : List Finding)
    (free : Option String) (hr : pyStrip r ≠ "") (hfile : f.file ≠ "")
    (hline : f.line ≠ 0) :
    ChaosPy.concise_fix_or_summary (some r) free (f :: rest) =
      if pyStartsWith (pyLower (pyStrip r))
          (pyLower (f.file ++ ":" ++ natToStr f.line)) then
        pyStrip r
      else (f.file ++ ":" ++ natToStr f.line) ++ " — " ++ pyStrip r := by
  have hrne : r ≠ "" := by
    intro h
    exact hr (by rw [h]; rfl)
  have hll : ChaosPy.llm_one_liner (some r) free (f :: rest) =
      some (pyStrip r) := by
    unfold ChaosPy.llm_one_liner
    simp [hrne]
  have hlocne : f.file ++ ":" ++ natToStr f.line ≠ "" := by
    intro h
    apply hfile
    have hd := congrArg String.data h
    rw [String.data_append, String.data_append] at hd
    rcases List.append_eq_nil.mp hd with ⟨hd2, -⟩
    rcases List.append_eq_nil.mp hd2 with ⟨hd3, -⟩
    exact String.ext (by rw [hd3])
  unfold ChaosPy.concise_fix_or_summary
  rw [hll]
  simp only [List.headD_cons]
  rw [if_pos hr]
  have hcond : (decide (f.file ≠ "") && decide (f.line ≠ 0)) = true := by
    simp [hfile, hline]
  rw [if_pos hcond]
  by_cases hsw : pyStartsWith (pyLower (pyStrip r))
      (pyLower (f.file ++ ":" ++ natToStr f.line)) = true
  · simp [hsw]
  · have hsw2 : pyStartsWith (pyLower (pyStrip r))
        (pyLower (f.file ++ ":" ++ natToStr f.line)) = false := by
      cases hx : pyStartsWith (pyLower (pyStrip r))
          (pyLower (f.file ++ ":" ++ natToStr f.line)) with
      | false => rfl
      | true => exact absurd hx hsw
    simp [hsw2, hlocne]

/-- Claim C5, witness: the Chaos composer with and without the location
already present in the oracle text. -/
theorem claim_C5_witness :
    ChaosPy.concise_fix_or_summary (some "a.py:3 — add a guard") none
      [⟨"a.py", 3, "m"⟩] = "a.py:3 — add a guard" ∧
    ChaosPy.concise_fix_or_summary (some "add a guard") none
      [⟨"a.py", 3, "m"⟩] = "a.py:3 — add a guard" := by
  have hA := claim_C5_chaos "a.py:3 — add a guard" ⟨"a.py", 3, "m"⟩ [] none
    (by decide) (by decide) (by decide)
  have hB := claim_C5_chaos "add a guard" ⟨"a.py", 3, "m"⟩ [] none
    (by decide) (by decide) (by decide)
  exact ⟨hA.trans (by decide), hB.trans (by decide)⟩

/-- Claim C6: `_llm_solution_text` has no deterministic fallback — if
both generation tiers fail it returns `None` — and when a tier succeeds
the reply is stripped, its whitespace runs collapsed, hard-truncated to
350 characters, with the ellipsis mark appended exactly when the
truncation dropped something. -/
theorem claim_C6 :
    (∀ findings : List Finding,
      ChaosPy.llm_solution_text none none findings = none) ∧
    (∀ (r : String) (free : Option String) (f : Finding) (rest : List Finding),
      r ≠ "" →
      ChaosPy.llm_solution_text (some r) free (f :: rest) =
        some (pyTake (collapseWs (pyStrip r)) 350 ++
          (if 350 < (collapseWs (pyStrip r)).length then "…" else ""))) := by
  constructor
  · intro findings
    unfold ChaosPy.llm_solution_text
    cases findings <;> simp
  · intro r free f rest hr
    unfold ChaosPy.llm_solution_text
    simp [hr]

set_option maxRecDepth 10000 in
/-- Claim C6, witness: a short reply is normalised without an ellipsis; a
400-character reply is cut at 350 characters with the ellipsis added. -/
theorem claim_C6_witness :
    ChaosPy.llm_solution_text (some "  two   spaces ") none [⟨"a", 1, "m"⟩] =
      some "two spaces" ∧
    ChaosPy.llm_solution_text (some (String.mk (List.replicate 400 'a')))
      none [⟨"a", 1, "m"⟩] =
      some (String.mk (List.replicate 350 'a') ++ "…") := by
  have hA := claim_C6.2 "  two   spaces " none ⟨"a", 1, "m"⟩ [] (by decide)
  have hB := claim_C6.2 (String.mk (List.replicate 400 'a')) none
    ⟨"a", 1, "m"⟩ [] (by decide)
  exact ⟨hA.trans (by decide), hB.trans (by decide)⟩

theorem map_jstr_shape (o : Option String) :
    o.map JVal.jstr = none ∨ ∃ st, o.map JVal.jstr = some (JVal.jstr st) := by
  cases o with
  | none => left; rfl
  | some s => right; exact ⟨s, rfl⟩

theorem AgentPy.reply_branch_ok (findings : List Finding) (lang : Option JVal)
    (llm : Option String) (mix : Bool) (pick : Nat)
    (hl : lang = none ∨ ∃ st, lang = some (JVal.jstr st)) :
    ∃ l1 l2,
      (if findings.isEmpty then
        AgentPy.brainrot_quip_raw none false mix pick >>= fun q =>
          pure (some ("shut your b*tch *ss up and provide the error", q))
      else
        AgentPy.brainrot_quip_raw lang
            ((findings.headD ⟨"", 0, ""⟩).file == "(unknown)") mix pick >>=
          fun q =>
            pure (some (AgentPy.concise_fix_or_summary llm findings, q))) =
        Except.ok (some (l1, l2)) ∧ l2 ∈ AgentPy.allQuips := by
  by_cases he : findings.isEmpty = true
  · rw [if_pos he]
    obtain ⟨q, hq, hm⟩ := AgentPy.quip_ok_mem none false mix pick (Or.inl rfl)
    exact ⟨_, q, by rw [hq]; rfl, hm⟩
  · rw [if_neg he]
    obtain ⟨q, hq, hm⟩ := AgentPy.quip_ok_mem lang
      ((findings.headD ⟨"", 0, ""⟩).file == "(unknown)") mix pick hl
    exact ⟨_, q, by rw [hq]; rfl, hm⟩

theorem AgentPy.plain_triage_ok (text : String) (llm : Option String)
    (mix : Bool) (pick : Nat) :
    ∃ l1 l2, AgentPy.plain_triage text llm mix pick = .ok (some (l1, l2)) ∧
      l2 ∈ AgentPy.allQuips :=
  AgentPy.reply_branch_ok (AgentPy.extract_findings text) _ llm mix pick
    (map_jstr_shape _)

/-- Claim C7, counterexample.  A JSON envelope carrying an unexpected
type in `log_tail` does not produce a two-segment reply: the handler
raises (`re.finditer(5)` is a `TypeError`), so there IS a crashing error
path in the core for malformed-but-parseable input. -/
theorem claim_C7_counterexample :
    AgentPy.on_chat_or_review "\x7b\"log_tail\": 5\x7d" none false 0 =
      .error .typeError := rfl

/-- Claim C7 (amended): whenever the stripped inbound text either cannot
be JSON at all or parses to a JSON value whose envelope fields (when it
is an object carrying `log_tail`) are well typed — `log_tail` a string or
falsy, `context` traversable, `context.lang` a string or falsy — the
handler raises nothing: an empty stripped text produces no reply, and a
non-empty one produces exactly two text segments, the second verbatim one
of the static quip-table entries.  Outside that hypothesis an ill-typed
envelope value raises `TypeError`/`AttributeError` (see the
counterexample). -/
theorem claim_C7_amended (text : String) (llm : Option String) (mix : Bool)
    (pick : Nat) (hok : AgentPy.envelope_ok (pyStrip text) = true) :
    (pyStrip text = "" ∧
      AgentPy.on_chat_or_review text llm mix pick = .ok none) ∨
    (pyStrip text ≠ "" ∧
      ∃ l1 l2, AgentPy.on_chat_or_review text llm mix pick =
        .ok (some (l1, l2)) ∧ l2 ∈ AgentPy.allQuips) := by
  by_cases hne : pyStrip text = ""
  · refine Or.inl ⟨hne, ?_⟩
    simp only [AgentPy.on_chat_or_review]
    rw [if_pos hne]
  · refine Or.inr ⟨hne, ?_⟩
    simp only [AgentPy.on_chat_or_review]
    rw [if_neg hne]
    by_cases hp : praiseSearch (pyStrip text) = true
    · rw [if_pos hp]
      obtain ⟨q, hq, hm⟩ := AgentPy.quip_ok_mem none false mix pick (Or.inl rfl)
      refine ⟨"u be glazing me brahh", q, ?_, hm⟩
      rw [hq]
      rfl
    · rw [if_neg hp]
      unfold AgentPy.envelope_ok at hok
      cases hj : jparse (pyStrip text) with
      | none =>
        simp only [AgentPy.dispatch]
        exact AgentPy.plain_triage_ok _ llm mix pick
      | some v =>
        rw [hj] at hok
        simp only [AgentPy.envelope_okAt] at hok
        cases v with
        | jobj kvs =>
          simp only [AgentPy.dispatch]
          simp only [AgentPy.envelope_ok_core] at hok
          by_cases hk : hasKeyJ kvs "log_tail" = true
          · rw [if_pos hk]
            rw [if_pos hk] at hok
            rw [Bool.and_eq_true] at hok
            obtain ⟨hok1, hok2⟩ := hok
            cases hc : ctxLang kvs with
            | error e =>
              rw [hc] at hok1
              simp [AgentPy.langOkB] at hok1
            | ok lang0 =>
              rw [hc] at hok1
              cases hlt : AgentPy.logTailStr kvs with
              | error e =>
                rw [hlt] at hok2
                simp [AgentPy.logTailOkB] at hok2
              | ok s =>
                cases lang0 with
                | none =>
                  exact AgentPy.reply_branch_ok (AgentPy.extract_findings s) _
                    llm mix pick (map_jstr_shape _)
                | some v =>
                  cases v with
                  | jstr st =>
                    exact AgentPy.reply_branch_ok (AgentPy.extract_findings s) _
                      llm mix pick (Or.inr ⟨st, rfl⟩)
                  | jnull => simp [AgentPy.langOkB] at hok1
                  | jbool b => simp [AgentPy.langOkB] at hok1
                  | jnum n => simp [AgentPy.langOkB] at hok1
                  | jarr xs => simp [AgentPy.langOkB] at hok1
                  | jobj kvs2 => simp [AgentPy.langOkB] at hok1
          · rw [if_neg hk]
            exact AgentPy.plain_triage_ok _ llm mix pick
        | jnull =>
          simp only [AgentPy.dispatch]
          exact AgentPy.plain_triage_ok _ llm mix pick
        | jbool b =>
          simp only [AgentPy.dispatch]
          exact AgentPy.plain_triage_ok _ llm mix pick
        | jnum n =>
          simp only [AgentPy.dispatch]
          exact AgentPy.plain_triage_ok _ llm mix pick
        | jstr s =>
          simp only [AgentPy.dispatch]
          exact AgentPy.plain_triage_ok _ llm mix pick
        | jarr xs =>
          simp only [AgentPy.dispatch]
          exact AgentPy.plain_triage_ok _ llm mix pick

/-- Claim C7, witness: `"boom failed"` opens with no JSON start
character, so the hypothesis holds, and the handler produces a
two-segment reply whose second segment is a verbatim quip-table entry. -/
theorem claim_C7_witness :
    (pyStrip "boom failed" = "" ∧
      AgentPy.on_chat_or_review "boom failed" none false 0 = .ok none) ∨
    (pyStrip "boom failed" ≠ "" ∧
      ∃ l1 l2, AgentPy.on_chat_or_review "boom failed" none false 0 =
        .ok (some (l1, l2)) ∧ l2 ∈ AgentPy.allQuips) :=
  claim_C7_amended "boom failed" none false 0 (by decide)

/-- Claim C8: with `basic=true` the remark selector of every module
returns the (sole) member of its basic table — `"Negative Aura"` in both
agent variants, the long-form definition string in the webhook — for any
`lang` argument and any randomness, and that member belongs to no
language, default, or flavour table. -/
theorem claim_C8 (langA langC : Option JVal) (langW : String) (mix : Bool)
    (pick : Nat) :
    AgentPy.brainrot_quip_raw langA true mix pick = .ok "Negative Aura" ∧
    ChaosPy.brainrot_quip_raw langC true mix pick = .ok "Negative Aura" ∧
    Webhook.quip langW true mix pick =
      "Negative Aura – A made-up term used to describe someone with a bad vibe or uncool energy. When someone loses so many aura points that they’re put in the negative, then they have negative aura." ∧
    "Negative Aura" ∉ AgentPy.QUIPS_cpp ++ AgentPy.QUIPS_python ++
      AgentPy.QUIPS_typescript ++ AgentPy.QUIPS_default ++
      AgentPy.QUIPS_italian ∧
    "Negative Aura" ∉ ChaosPy.QUIPS_cpp ++ ChaosPy.QUIPS_python ++
      ChaosPy.QUIPS_typescript ++ ChaosPy.QUIPS_default ++
      ChaosPy.QUIPS_italian ∧
    "Negative Aura – A made-up term used to describe someone with a bad vibe or uncool energy. When someone loses so many aura points that they’re put in the negative, then they have negative aura." ∉
      Webhook.QUIPS_cpp ++ Webhook.QUIPS_python ++ Webhook.QUIPS_typescript ++
      Webhook.QUIPS_default ++ Webhook.ITALIAN := by
  refine ⟨?_, ?_, ?_, by decide, by decide, by decide⟩
  · simp [AgentPy.brainrot_quip_raw, nthMod, AgentPy.QUIPS_basic,
      Nat.mod_one, nthAux]
  · simp [ChaosPy.brainrot_quip_raw, nthMod, ChaosPy.QUIPS_basic,
      Nat.mod_one, nthAux]
  · simp [Webhook.quip, nthMod, Webhook.QUIPS_basic, Nat.mod_one, nthAux]

/-- Claim C9, counterexample.  `_poll_gist_requests` advances the
`_last_seen_ts` watermark immediately after parsing a new timestamp and
never consults the delivery result: after a first cycle that merely
ATTEMPTED to post (successfully or not), re-polling the identical request
file is skipped (`ts <= last_seen`), so a failed response post is never
retried. -/
theorem claim_C9_counterexample :
    (ChaosPy.poll_gist_requests 0
      (some "\x7b\"ts\": 5, \"log_tail\": \"boom failed\"\x7d")
      none none none none false 0 100) =
      ⟨5, .ok (some (100,
        ["(unknown):1 — 🔥 assertion said ‘cap’ — fix the logic or update precondition.",
         "Negative Aura"]))⟩ ∧
    (ChaosPy.poll_gist_requests 5
      (some "\x7b\"ts\": 5, \"log_tail\": \"boom failed\"\x7d")
      none none none none false 0 101) = ⟨5, .ok none⟩ := by
  exact ⟨rfl, rfl⟩

/-- Claim C9 (amended): the watermark is advanced exactly when a new
timestamp is parsed — before the response is computed or posted, and
independent of delivery success (the `_gist_put_file` Boolean only gates
a log line).  Consequently a request whose response post failed is NOT
retried: re-polling the same request file on the next cycle bails out
with no post attempt. -/
theorem claim_C9_amended (lastSeen : Int) (raw : String)
    (asi free asi2 free2 : Option String) (mix : Bool) (pick : Nat)
    (now now2 : Int) (out : ChaosPy.PollOutcome)
    (hrun : ChaosPy.poll_gist_requests lastSeen (some raw) asi free asi2
      free2 mix pick now = out)
    (hpost : ∃ p, out.result = .ok (some p)) :
    lastSeen < out.lastSeen ∧
    ChaosPy.poll_gist_requests out.lastSeen (some raw) asi free asi2 free2
      mix pick now2 = ⟨out.lastSeen, .ok none⟩ := by
  obtain ⟨p, hp⟩ := hpost
  simp only [ChaosPy.poll_gist_requests] at hrun ⊢
  by_cases hre : raw = ""
  · rw [if_pos hre] at hrun ⊢
    subst hrun
    simp at hp
  · rw [if_neg hre] at hrun ⊢
    cases hj : jparse raw with
    | none =>
      rw [hj] at hrun
      simp only [ChaosPy.pollDispatch] at hrun
      subst hrun
      simp at hp
    | some v =>
      cases v with
      | jobj kvs =>
        rw [hj] at hrun
        simp only [ChaosPy.pollDispatch] at hrun ⊢
        cases hts : pyIntJ (lookupLast kvs "ts") with
        | error e =>
          rw [hts] at hrun
          simp only [ChaosPy.pollAfterTs] at hrun
          subst hrun
          simp at hp
        | ok ts =>
          rw [hts] at hrun
          simp only [ChaosPy.pollAfterTs] at hrun ⊢
          by_cases hle : ts ≤ lastSeen
          · rw [if_pos hle] at hrun
            subst hrun
            simp at hp
          · rw [if_neg hle] at hrun
            have hout : out.lastSeen = ts := by
              cases hb : ChaosPy.pollBody kvs asi free asi2 free2 mix pick now with
              | ok payload =>
                rw [hb] at hrun
                simp only [ChaosPy.pollRespond] at hrun
                rw [← hrun]
              | error e =>
                rw [hb] at hrun
                simp only [ChaosPy.pollRespond] at hrun
                rw [← hrun]
            refine ⟨by rw [hout]; omega, ?_⟩
            rw [hout, if_pos (le_refl ts)]
      | jnull =>
        rw [hj] at hrun
        simp only [ChaosPy.pollDispatch] at hrun
        subst hrun
        simp at hp
      | jbool b =>
        rw [hj] at hrun
        simp only [ChaosPy.pollDispatch] at hrun
        subst hrun
        simp at hp
      | jnum n =>
        rw [hj] at hrun
        simp only [ChaosPy.pollDispatch] at hrun
        subst hrun
        simp at hp
      | jstr st =>
        rw [hj] at hrun
        simp only [ChaosPy.pollDispatch] at hrun
        subst hrun
        simp at hp
      | jarr xs =>
        rw [hj] at hrun
        simp only [ChaosPy.pollDispatch] at hrun
        subst hrun
        simp at hp

/-- Claim C9, witness: the amended claim applied to a concrete request
file whose first cycle attempted a post. -/
theorem claim_C9_witness :
    ChaosPy.poll_gist_requests 5
      (some "\x7b\"ts\": 5, \"log_tail\": \"boom failed\"\x7d")
      none none none none false 0 101 = ⟨5, .ok none⟩ := by
  have h := claim_C9_amended 0 "\x7b\"ts\": 5, \"log_tail\": \"boom failed\"\x7d"
    none none none none false 0 100 101
    ⟨5, .ok (some (100,
      ["(unknown):1 — 🔥 assertion said ‘cap’ — fix the logic or update precondition.",
       "Negative Aura"]))⟩ rfl ⟨_, rfl⟩
  exact h.2

/-- Claim C10: in `src/agent/agent.py` the traceback family never yields
a structured finding on ANY input (its `file`/`line` groups are unnamed,
so the well-formedness guard rejects every match); hence whenever the
other two families also yield nothing, `_extract_findings` surfaces the
input only through the keyword fallback, with `file="(unknown)"` and
`line=1`. -/
theorem claim_C10 (t : String)
    (h1 : famValid (AgentPy.fam1 t) = [])
    (h3 : famValid (AgentPy.fam3 t) = []) :
    famValid (AgentPy.fam2 t) = [] ∧
    AgentPy.extract_findings t = kwFallback t ∧
    ∀ f ∈ AgentPy.extract_findings t, f.file = "(unknown)" ∧ f.line = 1 := by
  have h2 := AgentPy.fam2_valid_empty t
  have hs : AgentPy.structured_findings t = [] := by
    rw [AgentPy.agent_structured_eq, h1, h2, h3]
    rfl
  have hext : AgentPy.extract_findings t = kwFallback t := by
    rw [AgentPy.agent_extract_eq, hs]
    simp
  refine ⟨h2, hext, ?_⟩
  intro f hf
  rw [hext] at hf
  exact kwFallback_wf t f hf

/-- Claim C10, witness: a pure Python traceback is surfaced only through
the keyword fallback. -/
theorem claim_C10_witness :
    famValid (AgentPy.fam2 "Traceback (most recent call last):\n  File \"app.py\", line 3, in <module>\nZeroDivisionError: division by zero") = [] ∧
    AgentPy.extract_findings "Traceback (most recent call last):\n  File \"app.py\", line 3, in <module>\nZeroDivisionError: division by zero" =
      kwFallback "Traceback (most recent call last):\n  File \"app.py\", line 3, in <module>\nZeroDivisionError: division by zero" ∧
    AgentPy.extract_findings "Traceback (most recent call last):\n  File \"app.py\", line 3, in <module>\nZeroDivisionError: division by zero" =
      [⟨"(unknown)", 1, "ZeroDivisionError: division by zero"⟩] := by
  have h := claim_C10 "Traceback (most recent call last):\n  File \"app.py\", line 3, in <module>\nZeroDivisionError: division by zero"
    (by decide) (by decide)
  exact ⟨h.1, h.2.1, by decide⟩

end ChaosReview
